import Mathlib

/-!
Verification development for the physics and collision core of the
AngryBirds repository (src/AngryBirds.cpp).  The C++ code is shallowly
embedded below: float arithmetic is idealized as real arithmetic, C++
`atan2` as the argument of a complex number, and C++ float-to-int
conversions as truncation toward zero.  Rendering data (textures,
colors, level names) is omitted: the physics core never reads it.
-/

namespace AngryBirds

noncomputable section

/-- Constant PROBE_QUANTITY from the source. -/
def PROBE_QUANTITY : ℕ := 10

/-- Constant VELOCITY_MULTIPLIER from the source (an int, used in float math). -/
def VELOCITY_MULTIPLIER : ℝ := 40

/-- Constant LAUNCH_MAX_DISTANCE from the source. -/
def LAUNCH_MAX_DISTANCE : ℝ := 100

/-- Constant GRAVITY from the source. -/
def GRAVITY : ℝ := 1

/-- Power-up cost field of GameWorld (powerupCost = 50). -/
def powerupCost : ℤ := 50

/-- toRadians from the source: degrees * (PI / 180). -/
def toRadians (degrees : ℝ) : ℝ := degrees * (Real.pi / 180)

/-- C++ float-to-int conversion: truncation toward zero. -/
def trunc (x : ℝ) : ℤ := if 0 ≤ x then ⌊x⌋ else ⌈x⌉

/-- C++ atan2(y, x), modelled as the argument of the complex number x + y i. -/
def atan2 (y x : ℝ) : ℝ := Complex.arg ⟨x, y⟩

/-- raylib Vector2 with idealized real coordinates. -/
structure Vector2 where
  x : ℝ
  y : ℝ

/-- raylib Rectangle. -/
structure Rectangle where
  x : ℝ
  y : ℝ
  width : ℝ
  height : ℝ

/-- raylib CheckCollisionPointRec: point-in-rectangle test (left/top edges
inclusive, right/bottom exclusive, as in raylib's rshapes.c). -/
def checkCollisionPointRec (p : Vector2) (r : Rectangle) : Prop :=
  r.x ≤ p.x ∧ p.x < r.x + r.width ∧ r.y ≤ p.y ∧ p.y < r.y + r.height

/-- raylib CheckCollisionPointCircle: squared-distance comparison. -/
def checkCollisionPointCircle (p : Vector2) (center : Vector2) (radius : ℝ) : Prop :=
  (p.x - center.x) ^ 2 + (p.y - center.y) ^ 2 ≤ radius ^ 2

/-- Obstacle: rectangle plus visibility flag (fill/stroke colors are
cosmetic rendering data and are omitted). -/
structure Obstacle where
  rect : Rectangle
  visible : Bool

/-- Ball: the projectile state (textures and colors omitted). -/
structure Ball where
  pos : Vector2
  vel : Vector2
  radius : ℝ
  friction : ℝ
  elasticity : ℝ
  rotationAngle : ℝ
  isSplit : Bool
  isActive : Bool

/-- The collisionProbes array of Ball: ten float slots, the first eight
initialized to 0,45,...,315 degrees and the last two value-initialized
to 0.  The source always indexes it modulo PROBE_QUANTITY, which is
folded into this definition. -/
def collisionProbes (i : ℕ) : ℝ :=
  if i % 10 = 0 then 0
  else if i % 10 = 1 then 45
  else if i % 10 = 2 then 90
  else if i % 10 = 3 then 135
  else if i % 10 = 4 then 180
  else if i % 10 = 5 then 225
  else if i % 10 = 6 then 270
  else if i % 10 = 7 then 315
  else 0

/-- Ball::GetProbePosition from the source. -/
def Ball.probePosition (b : Ball) (forX : Bool) (probeIndex : ℕ) : ℝ :=
  let p := if forX then b.pos.x else b.pos.y
  let angleRad := toRadians (collisionProbes probeIndex)
  let t := if forX then Real.cos angleRad else Real.sin angleRad
  let probeRadius := if b.isSplit then b.radius * 0.7 else b.radius
  p + probeRadius * (if probeIndex / 10 > 0 then 0.5 else 1) * t

/-- Ball::CollidesWith from the source: false when the obstacle is
invisible or the ball inactive, otherwise true exactly when one of the
PROBE_QUANTITY * 2 probe points is inside the obstacle's rectangle. -/
def Ball.collidesWith (b : Ball) (o : Obstacle) : Prop :=
  o.visible = true ∧ b.isActive = true ∧
    ∃ i, i < PROBE_QUANTITY * 2 ∧
      checkCollisionPointRec ⟨b.probePosition true i, b.probePosition false i⟩ o.rect

/-- Ball::CreateSplitBall from the source. -/
def Ball.createSplitBall (b : Ball) (angleOffset : ℝ) : Ball :=
  let currentAngle := atan2 b.vel.y b.vel.x
  let newAngle := currentAngle + toRadians angleOffset
  let speed := Real.sqrt (b.vel.x * b.vel.x + b.vel.y * b.vel.y)
  { b with isSplit := true, radius := b.radius * 0.7,
           vel := ⟨Real.cos newAngle * speed, Real.sin newAngle * speed⟩ }

/-- Level state enum from the source. -/
inductive LevelState where
  | PLAYING
  | COMPLETED
  | FAILED
  deriving DecidableEq

/-- Level: obstacle list, target score and state (the name string and the
virtual Initialize layout code are rendering/config data, omitted). -/
structure Level where
  obstacles : List Obstacle
  targetScore : ℤ
  state : LevelState

/-- Level::GetCurrentScore from the source: 10 points per invisible obstacle,
accumulated by a loop. -/
def Level.currentScore (l : Level) : ℤ :=
  l.obstacles.foldl (fun s o => if o.visible then s else s + 10) 0

/-- Level::Update from the source: mark the level completed when the score
reaches the target. -/
def Level.update (l : Level) : Level :=
  if l.currentScore ≥ l.targetScore then { l with state := .COMPLETED } else l

/-- Level::Reset from the source: restore all obstacle visibility and set the
state back to PLAYING. -/
def Level.reset (l : Level) : Level :=
  { l with obstacles := l.obstacles.map (fun o => { o with visible := true }),
           state := .PLAYING }

/-- The physics tail of GameWorld::UpdateBall (lines 754-771 of the source):
ground bounce, explicit Euler position update, gravity, rotation, friction,
and the rest-deactivation check, in source order. -/
def integrateBall (screenHeight : ℝ) (b : Ball) : Ball :=
  let b1 := if b.pos.y + b.radius > screenHeight then
      { b with pos := ⟨b.pos.x, screenHeight - b.radius⟩,
               vel := ⟨b.vel.x, b.vel.y * -b.elasticity⟩ }
    else b
  let b2 := { b1 with pos := ⟨b1.pos.x + b1.vel.x, b1.pos.y + b1.vel.y⟩ }
  let b3 := { b2 with vel := ⟨b2.vel.x, b2.vel.y + GRAVITY⟩ }
  let b4 := { b3 with rotationAngle := b3.rotationAngle + 5 }
  let b5 := { b4 with vel := ⟨b4.vel.x * b4.friction, b4.vel.y * b4.friction⟩ }
  if |b5.vel.x| < 0.1 ∧ |b5.vel.y| < 0.1 ∧ b5.pos.y > screenHeight - b5.radius - 1 then
    { b5 with isActive := false }
  else b5

/-- The integrator tick exactly as claim C1 orders it (ground bounce,
position, gravity, friction, rotation) with the claim's deactivation
window: the projectile rests within one radius of the ground line. -/
def claimTick (screenHeight : ℝ) (b : Ball) : Ball :=
  let b1 := if b.pos.y + b.radius > screenHeight then
      { b with pos := ⟨b.pos.x, screenHeight - b.radius⟩,
               vel := ⟨b.vel.x, b.vel.y * -b.elasticity⟩ }
    else b
  let b2 := { b1 with pos := ⟨b1.pos.x + b1.vel.x, b1.pos.y + b1.vel.y⟩ }
  let b3 := { b2 with vel := ⟨b2.vel.x, b2.vel.y + GRAVITY⟩ }
  let b4 := { b3 with vel := ⟨b3.vel.x * b3.friction, b3.vel.y * b3.friction⟩ }
  let b5 := { b4 with rotationAngle := b4.rotationAngle + 5 }
  if |b5.vel.x| < 0.1 ∧ |b5.vel.y| < 0.1 ∧ |screenHeight - b5.pos.y| ≤ b5.radius then
    { b5 with isActive := false }
  else b5

/-- The integrator tick in the claim's step order, with the deactivation
window the code actually uses: pos.y strictly above groundY - radius - 1. -/
def amendedTick (screenHeight : ℝ) (b : Ball) : Ball :=
  let b1 := if b.pos.y + b.radius > screenHeight then
      { b with pos := ⟨b.pos.x, screenHeight - b.radius⟩,
               vel := ⟨b.vel.x, b.vel.y * -b.elasticity⟩ }
    else b
  let b2 := { b1 with pos := ⟨b1.pos.x + b1.vel.x, b1.pos.y + b1.vel.y⟩ }
  let b3 := { b2 with vel := ⟨b2.vel.x, b2.vel.y + GRAVITY⟩ }
  let b4 := { b3 with vel := ⟨b3.vel.x * b3.friction, b3.vel.y * b3.friction⟩ }
  let b5 := { b4 with rotationAngle := b4.rotationAngle + 5 }
  if |b5.vel.x| < 0.1 ∧ |b5.vel.y| < 0.1 ∧ b5.pos.y > screenHeight - b5.radius - 1 then
    { b5 with isActive := false }
  else b5

/-- A probe point as described by the spec: position + r' * (cos th, sin th)
with th one of the eight 45-degree directions and r' the effective
collision radius (scaled by 0.7 when split) or half of it. -/
def specProbePoint (b : Ball) (j : Fin 8) (half : Bool) : Vector2 :=
  let fullR := if b.isSplit then b.radius * 0.7 else b.radius
  let rr := if half then fullR / 2 else fullR
  let th := toRadians ((45 : ℝ) * (j : ℕ))
  ⟨b.pos.x + rr * Real.cos th, b.pos.y + rr * Real.sin th⟩

/-- A point strictly outside a rectangle (outside its closed hull). -/
def strictlyOutside (p : Vector2) (r : Rectangle) : Prop :=
  p.x < r.x ∨ r.x + r.width < p.x ∨ p.y < r.y ∨ r.y + r.height < p.y

/-- Rotation of a plane vector by an angle (spec-side description of the
split velocities). -/
def rotate (angle : ℝ) (v : Vector2) : Vector2 :=
  ⟨v.x * Real.cos angle - v.y * Real.sin angle,
   v.x * Real.sin angle + v.y * Real.cos angle⟩

/-- Magnitude of a plane vector. -/
def mag (v : Vector2) : ℝ := Real.sqrt (v.x ^ 2 + v.y ^ 2)

open Classical in
/-- The collision loop of GameWorld::UpdateBall: scan the obstacle list,
hide every visible obstacle some probe point is inside, damp the ball's
horizontal velocity once per hit, and record whether anything was hit. -/
def updateBallCollisions (b : Ball) (obstacles : List Obstacle) :
    List Obstacle × Ball × Bool :=
  obstacles.foldl (fun acc o =>
    if acc.2.1.collidesWith o then
      if o.visible = true then
        (acc.1 ++ [{ o with visible := false }],
         { acc.2.1 with vel := ⟨acc.2.1.vel.x * acc.2.1.elasticity, acc.2.1.vel.y⟩ },
         true)
      else (acc.1 ++ [o], acc.2)
    else (acc.1 ++ [o], acc.2)) ([], b, false)

/-- GameWorld::UpdateBall from the source: collision resolution against the
current level, conditional score/state update, then the physics tail. -/
def updateBall (screenHeight : ℝ) (b : Ball) (lv : Level) : Ball × Level :=
  let c := updateBallCollisions b lv.obstacles
  let lv1 := { lv with obstacles := c.1 }
  let lv2 := if c.2.2 = true then lv1.update else lv1
  (integrateBall screenHeight c.2.1, lv2)

/-- Per-frame input consumed by GameWorld::Update (pointer state, key edges,
frame time, viewport height). -/
structure Input where
  mouse : Vector2
  leftPressed : Bool
  leftDown : Bool
  leftReleased : Bool
  rightPressed : Bool
  spacePressed : Bool
  key1 : Bool
  key2 : Bool
  key3 : Bool
  key4 : Bool
  frameTime : ℝ
  screenHeight : ℝ

/-- GameWorld state (textures and the power-up button rectangle are
rendering data, omitted).  The four level objects are the entries of
`levels`; `cur` is the zero-based index of the current level, so the
source's currentLevelIndex is cur + 1.  The function-local static
completionTime of GameWorld::Update is modelled as a field. -/
structure GameWorld where
  ball : Ball
  splitBalls : List Ball
  levels : Fin 4 → Level
  cur : Fin 4
  selected : Bool
  xStart : ℝ
  yStart : ℝ
  launched : Bool
  launchAngle : ℝ
  relativeAngle : ℝ
  launchDistance : ℤ
  xOffset : ℤ
  yOffset : ℤ
  totalScore : ℤ
  attempts : ℤ
  canUsePowerup : Bool
  powerupActive : Bool
  completionTime : ℝ

/-- The level currently pointed to. -/
def GameWorld.currentLevel (w : GameWorld) : Level := w.levels w.cur

/-- Write back the current level (mutation through the currentLevel pointer). -/
def GameWorld.setCurrentLevel (w : GameWorld) (l : Level) : GameWorld :=
  { w with levels := Function.update w.levels w.cur l }

/-- GameWorld::ResetBalls from the source. -/
def GameWorld.resetBalls (w : GameWorld) : GameWorld :=
  { w with ball := { w.ball with pos := ⟨w.xStart, w.yStart⟩, vel := ⟨50, -50⟩,
                                 rotationAngle := 0, isSplit := false, isActive := true,
                                 radius := 40 },
           launched := false, selected := false, splitBalls := [] }

/-- GameWorld::Reset from the source: ResetBalls, clear split balls,
deactivate the power-up. -/
def GameWorld.reset (w : GameWorld) : GameWorld :=
  { w.resetBalls with powerupActive := false }

/-- GameWorld::SetLevel from the source: reset ball state, select the level
(defaulting to level 1), restore three attempts and reset the new level. -/
def GameWorld.setLevel (w : GameWorld) (levelNum : ℕ) : GameWorld :=
  let w1 := w.reset
  let idx : Fin 4 :=
    if levelNum = 1 then 0
    else if levelNum = 2 then 1
    else if levelNum = 3 then 2
    else if levelNum = 4 then 3
    else 0
  let w2 := { w1 with cur := idx, attempts := 3 }
  w2.setCurrentLevel ((w2.levels idx).reset)

/-- GameWorld::ActivateSplitPowerup from the source. -/
def GameWorld.activateSplitPowerup (w : GameWorld) : GameWorld :=
  if w.canUsePowerup = false ∨ w.launched = false ∨ w.ball.isSplit = true ∨
      0 < w.splitBalls.length then w
  else
    let w1 := { w with totalScore := w.totalScore - powerupCost, powerupActive := true }
    let w2 := { w1 with splitBalls :=
      w1.splitBalls ++ [w.ball.createSplitBall (-30), w.ball.createSplitBall 30] }
    { w2 with ball := { w2.ball with isSplit := true, radius := w2.ball.radius * 0.7 } }

/-- The completed-level branch at the top of GameWorld::Update: advance to
the next level two seconds after completion, then return. -/
def completedPhase (inp : Input) (w : GameWorld) : GameWorld :=
  if w.cur.val + 1 < 4 then
    let t := w.completionTime + inp.frameTime
    if t > 2 then
      let w1 := w.setLevel (w.cur.val + 2)
      { w1 with completionTime := 0 }
    else { w with completionTime := t }
  else w

/-- The score bookkeeping of GameWorld::Update: recompute the total score
from the four levels and the power-up affordability flag. -/
def scorePhase (w : GameWorld) : GameWorld :=
  let ts := (w.levels 0).currentScore + (w.levels 1).currentScore +
            (w.levels 2).currentScore + (w.levels 3).currentScore
  { w with totalScore := ts, canUsePowerup := decide (ts ≥ powerupCost) }

/-- The in-flight power-up click check of GameWorld::Update. -/
def powerupPhase (inp : Input) (w : GameWorld) : GameWorld :=
  if w.launched = true ∧ w.canUsePowerup = true ∧ w.powerupActive = false ∧
      w.ball.isSplit = false ∧ w.ball.isActive = true ∧ inp.leftPressed = true then
    w.activateSplitPowerup
  else w

open Classical in
/-- The grab check of GameWorld::Update: picking up the ball with the mouse. -/
def grabPhase (inp : Input) (w : GameWorld) : GameWorld :=
  if inp.leftPressed = true ∧
      checkCollisionPointCircle inp.mouse w.ball.pos w.ball.radius ∧
      w.launched = false then
    { w with selected := true,
             xOffset := trunc (inp.mouse.x - w.ball.pos.x),
             yOffset := trunc (inp.mouse.y - w.ball.pos.y) }
  else w

/-- The dragged ball position before clamping. -/
def dragPos (inp : Input) (w : GameWorld) : Vector2 :=
  ⟨inp.mouse.x - (w.xOffset : ℝ), inp.mouse.y - (w.yOffset : ℝ)⟩

/-- The int dx of the drag branch: xStart - ball.pos.x truncated to int. -/
def dragDx (inp : Input) (w : GameWorld) : ℤ := trunc (w.xStart - (dragPos inp w).x)

/-- The int dy of the drag branch. -/
def dragDy (inp : Input) (w : GameWorld) : ℤ := trunc (w.yStart - (dragPos inp w).y)

/-- The int launchDistance of the drag branch: sqrt(dx*dx + dy*dy) truncated. -/
def dragDist (inp : Input) (w : GameWorld) : ℤ :=
  trunc (Real.sqrt ((dragDx inp w * dragDx inp w + dragDy inp w * dragDy inp w : ℤ) : ℝ))

/-- The relativeAngle of the drag branch: atan2(dy, dx) + PI. -/
def dragRel (inp : Input) (w : GameWorld) : ℝ :=
  atan2 (dragDy inp w : ℝ) (dragDx inp w : ℝ) + Real.pi

/-- The launchAngle of the drag branch: PI - relativeAngle. -/
def dragLaunchAngle (inp : Input) (w : GameWorld) : ℝ := Real.pi - dragRel inp w

/-- The dragged ball position after the clamp to the launch circle (the
clamp fires only when the int-truncated distance exceeds 100). -/
def dragClampedPos (inp : Input) (w : GameWorld) : Vector2 :=
  if dragDist inp w > (100 : ℤ) then
    ⟨w.xStart + Real.cos (dragRel inp w) * LAUNCH_MAX_DISTANCE,
     w.yStart + Real.sin (dragRel inp w) * LAUNCH_MAX_DISTANCE⟩
  else dragPos inp w

/-- The provisional launch velocity of the drag branch. -/
def dragVel (inp : Input) (w : GameWorld) : Vector2 :=
  ⟨|(dragClampedPos inp w).x - w.xStart| / LAUNCH_MAX_DISTANCE *
      Real.cos (dragLaunchAngle inp w) * VELOCITY_MULTIPLIER,
   -(|(dragClampedPos inp w).y - w.yStart| / LAUNCH_MAX_DISTANCE) *
      Real.sin (dragLaunchAngle inp w) * VELOCITY_MULTIPLIER⟩

/-- The drag branch of GameWorld::Update: move the ball with the mouse,
compute launch angle and distance from int-truncated offsets, clamp to the
LAUNCH_MAX_DISTANCE circle, and set the provisional launch velocity. -/
def dragPhase (inp : Input) (w : GameWorld) : GameWorld :=
  if inp.leftDown = true ∧ w.selected = true then
    { w with ball := { w.ball with pos := dragClampedPos inp w, vel := dragVel inp w },
             launchDistance := dragDist inp w, relativeAngle := dragRel inp w,
             launchAngle := dragLaunchAngle inp w }
  else w

/-- The release branch of GameWorld::Update: if the ball was held away from
the anchor, launch it and spend an attempt; always drop the selection. -/
def releasePhase (inp : Input) (w : GameWorld) : GameWorld :=
  if inp.leftReleased = true then
    let w1 := if w.selected = true ∧ (w.ball.pos.x ≠ w.xStart ∨ w.ball.pos.y ≠ w.yStart) then
        { w with launched := true, attempts := w.attempts - 1, powerupActive := false }
      else w
    { w1 with selected := false }
  else w

/-- The split-ball update loop of GameWorld::Update, threading the current
level through each UpdateBall call. -/
def runSplitBalls (screenHeight : ℝ) (splits : List Ball) (lv : Level) :
    List Ball × Level :=
  splits.foldl (fun acc sb =>
    if sb.isActive = true then
      let r := updateBall screenHeight sb acc.2
      (acc.1 ++ [r.1], r.2)
    else (acc.1 ++ [sb], acc.2)) ([], lv)

/-- The per-tick ball simulation: the main ball (if active) then every split
ball, each against the current level. -/
def ballsResult (screenHeight : ℝ) (w : GameWorld) : Ball × List Ball × Level :=
  let mb := if w.ball.isActive = true then updateBall screenHeight w.ball w.currentLevel
            else (w.ball, w.currentLevel)
  (mb.1, runSplitBalls screenHeight w.splitBalls mb.2)

open Classical in
/-- The launched-physics branch of GameWorld::Update: simulate all balls,
then if every ball has stopped, fail the level when no attempts remain and
it is not completed, and reset the balls. -/
def physicsPhase (inp : Input) (w : GameWorld) : GameWorld :=
  if w.launched = true then
    let r := ballsResult inp.screenHeight w
    let allStopped := r.1.isActive = false ∧ ∀ b ∈ r.2.1, b.isActive = false
    let lv2 :=
      if allStopped ∧ w.attempts ≤ 0 ∧ r.2.2.state ≠ LevelState.COMPLETED then
        { r.2.2 with state := .FAILED }
      else r.2.2
    let w1 := ({ w with ball := r.1, splitBalls := r.2.1 }).setCurrentLevel lv2
    if allStopped then w1.resetBalls else w1
  else w

/-- The right-click / space reset branch of GameWorld::Update. -/
def resetKeyPhase (inp : Input) (w : GameWorld) : GameWorld :=
  if inp.rightPressed = true ∨ inp.spacePressed = true then
    let w1 := w.reset
    let w2 := w1.setCurrentLevel w1.currentLevel.reset
    { w2 with attempts := 3 }
  else w

/-- The level-selection key branch of GameWorld::Update. -/
def levelKeyPhase (inp : Input) (w : GameWorld) : GameWorld :=
  if inp.key1 = true then w.setLevel 1
  else if inp.key2 = true then w.setLevel 2
  else if inp.key3 = true then w.setLevel 3
  else if inp.key4 = true then w.setLevel 4
  else w

/-- The tick pipeline of GameWorld::Update before the physics branch. -/
def prePhysics (inp : Input) (w : GameWorld) : GameWorld :=
  releasePhase inp (dragPhase inp (grabPhase inp (powerupPhase inp (scorePhase w))))

/-- GameWorld::Update from the source: early return while the current level
is completed, otherwise score bookkeeping, input handling, physics, and the
reset and level-selection keys, in source order. -/
def GameWorld.update (inp : Input) (w : GameWorld) : GameWorld :=
  if w.currentLevel.state = LevelState.COMPLETED then completedPhase inp w
  else levelKeyPhase inp (resetKeyPhase inp (physicsPhase inp (prePhysics inp w)))

/-- The ticks of GameWorld::Update that invoke Level::Reset on some level:
the timed auto-advance while completed, and the reset / level-selection
keys otherwise. -/
def tickResets (inp : Input) (w : GameWorld) : Prop :=
  if w.currentLevel.state = LevelState.COMPLETED then
    w.cur.val + 1 < 4 ∧ w.completionTime + inp.frameTime > 2
  else
    inp.rightPressed = true ∨ inp.spacePressed = true ∨ inp.key1 = true ∨
      inp.key2 = true ∨ inp.key3 = true ∨ inp.key4 = true

/-- Effective collision radius of a projectile: scaled by 0.7 when split
(the probeRadius of Ball::GetProbePosition). -/
def Ball.effectiveRadius (b : Ball) : ℝ :=
  if b.isSplit then b.radius * 0.7 else b.radius

/-- Concrete projectile centered on a tiny obstacle: all probe points lie
at least about ten units from the center, so none is inside. -/
def cexBallC8 : Ball :=
  { pos := ⟨300, 300⟩, vel := ⟨0, 0⟩, radius := 40, friction := 0.99,
    elasticity := 0.9, rotationAngle := 0, isSplit := false, isActive := true }

/-- Tiny visible obstacle centered at (300, 300). -/
def cexObstacleC8 : Obstacle :=
  { rect := ⟨299.5, 299.5, 1, 1⟩, visible := true }

/-- A standard projectile centered on a level-one block. -/
def witBallC8 : Ball :=
  { pos := ⟨100, 100⟩, vel := ⟨0, 0⟩, radius := 40, friction := 0.99,
    elasticity := 0.9, rotationAngle := 0, isSplit := false, isActive := true }

/-- A level-one-sized block (30 x 40) centered at (100, 100). -/
def witObstacleC8 : Obstacle :=
  { rect := ⟨85, 80, 30, 40⟩, visible := true }

/-- A block far away from witBallC8. -/
def witFarObstacleC8 : Obstacle :=
  { rect := ⟨1000, 1000, 30, 40⟩, visible := true }

/-- A level with no obstacles, used for concrete worlds. -/
def emptyLevel : Level := { obstacles := [], targetScore := 100, state := .PLAYING }

/-- World meeting every C3 precondition except that the main ball is
inactive: the code still splits. -/
def cexWorldC3 : GameWorld :=
  { ball := { pos := ⟨0, 0⟩, vel := ⟨3, 4⟩, radius := 40, friction := 0.99,
              elasticity := 0.9, rotationAngle := 0, isSplit := false, isActive := false },
    splitBalls := [], levels := fun _ => emptyLevel, cur := 0, selected := false,
    xStart := 200, yStart := 520, launched := true, launchAngle := 0, relativeAngle := 0,
    launchDistance := 0, xOffset := 0, yOffset := 0, totalScore := 50, attempts := 3,
    canUsePowerup := true, powerupActive := false, completionTime := 0 }

/-- World meeting every C3 precondition, for the witness. -/
def witWorldC3 : GameWorld :=
  { ball := { pos := ⟨0, 0⟩, vel := ⟨3, 4⟩, radius := 40, friction := 0.99,
              elasticity := 0.9, rotationAngle := 0, isSplit := false, isActive := true },
    splitBalls := [], levels := fun _ => emptyLevel, cur := 0, selected := false,
    xStart := 200, yStart := 520, launched := true, launchAngle := 0, relativeAngle := 0,
    launchDistance := 0, xOffset := 0, yOffset := 0, totalScore := 60, attempts := 3,
    canUsePowerup := true, powerupActive := false, completionTime := 0 }

/-- World with the ball not launched: the power-up call must be a no-op. -/
def witWorldC3b : GameWorld :=
  { ball := { pos := ⟨0, 0⟩, vel := ⟨3, 4⟩, radius := 40, friction := 0.99,
              elasticity := 0.9, rotationAngle := 0, isSplit := false, isActive := true },
    splitBalls := [], levels := fun _ => emptyLevel, cur := 0, selected := false,
    xStart := 200, yStart := 520, launched := false, launchAngle := 0, relativeAngle := 0,
    launchDistance := 0, xOffset := 0, yOffset := 0, totalScore := 60, attempts := 3,
    canUsePowerup := true, powerupActive := false, completionTime := 0 }

/-- The condition under which the physics branch marks the current level
failed, stated about the world the branch runs on: the ball was launched,
after this tick's integration the main ball and every split ball are
inactive, the attempts counter has reached zero (or below), and the level
(after this tick's collisions) has not reached COMPLETED. -/
def failConditionHolds (inp : Input) (m : GameWorld) : Prop :=
  m.launched = true ∧ (ballsResult inp.screenHeight m).1.isActive = false ∧
    (∀ b ∈ (ballsResult inp.screenHeight m).2.1, b.isActive = false) ∧
    m.attempts ≤ 0 ∧ (ballsResult inp.screenHeight m).2.2.state ≠ LevelState.COMPLETED

/-- An obstacle-free level already in the FAILED state. -/
def failedLevel : Level := { obstacles := [], targetScore := 100, state := .FAILED }

/-- An obstacle-free level already in the COMPLETED state. -/
def completedLevel : Level := { obstacles := [], targetScore := 0, state := .COMPLETED }

/-- An input with no pointer or key activity. -/
def idleInput : Input :=
  { mouse := ⟨0, 0⟩, leftPressed := false, leftDown := false, leftReleased := false,
    rightPressed := false, spacePressed := false, key1 := false, key2 := false,
    key3 := false, key4 := false, frameTime := 0, screenHeight := 720 }

/-- An input with only a left-button release. -/
def releaseInput : Input :=
  { mouse := ⟨0, 0⟩, leftPressed := false, leftDown := false, leftReleased := true,
    rightPressed := false, spacePressed := false, key1 := false, key2 := false,
    key3 := false, key4 := false, frameTime := 0, screenHeight := 720 }

/-- World on the last level with that level completed: the tick performs no
reset and leaves every level state unchanged. -/
def witWorldC5 : GameWorld :=
  { ball := { pos := ⟨200, 520⟩, vel := ⟨50, -50⟩, radius := 40, friction := 0.99,
              elasticity := 0.9, rotationAngle := 0, isSplit := false, isActive := true },
    splitBalls := [], levels := fun i => if i = 3 then completedLevel else emptyLevel,
    cur := 3, selected := false, xStart := 200, yStart := 520, launched := false,
    launchAngle := 0, relativeAngle := 0, launchDistance := 0, xOffset := 0, yOffset := 0,
    totalScore := 0, attempts := 3, canUsePowerup := false, powerupActive := false,
    completionTime := 0 }

/-- Launched world whose ball comes to rest on the ground this tick, with
no attempts left: the tick introduces the FAILED state. -/
def witWorldC6 : GameWorld :=
  { ball := { pos := ⟨300, 679.5⟩, vel := ⟨0, 0⟩, radius := 40, friction := 0,
              elasticity := 0.9, rotationAngle := 0, isSplit := false, isActive := true },
    splitBalls := [], levels := fun _ => emptyLevel, cur := 0, selected := false,
    xStart := 200, yStart := 520, launched := true, launchAngle := 0, relativeAngle := 0,
    launchDistance := 0, xOffset := 0, yOffset := 0, totalScore := 0, attempts := 0,
    canUsePowerup := false, powerupActive := false, completionTime := 0 }

/-- World with the current level already FAILED, zero attempts, and the
ball held away from the anchor: releasing still launches and decrements. -/
def witWorldC10 : GameWorld :=
  { ball := { pos := ⟨300, 500⟩, vel := ⟨50, -50⟩, radius := 40, friction := 0.99,
              elasticity := 0.9, rotationAngle := 0, isSplit := false, isActive := true },
    splitBalls := [], levels := fun _ => failedLevel, cur := 0, selected := true,
    xStart := 200, yStart := 520, launched := false, launchAngle := 0, relativeAngle := 0,
    launchDistance := 0, xOffset := 0, yOffset := 0, totalScore := 0, attempts := 0,
    canUsePowerup := false, powerupActive := false, completionTime := 0 }

/-- A world holding the ball mid-drag, used for the launch-controller
claims. -/
def dragWorld : GameWorld :=
  { ball := { pos := ⟨150, 480⟩, vel := ⟨0, 0⟩, radius := 40, friction := 0.99,
              elasticity := 0.9, rotationAngle := 0, isSplit := false, isActive := true },
    splitBalls := [], levels := fun _ => emptyLevel, cur := 0, selected := true,
    xStart := 200, yStart := 520, launched := false, launchAngle := 0, relativeAngle := 0,
    launchDistance := 0, xOffset := 0, yOffset := 0, totalScore := 0, attempts := 3,
    canUsePowerup := false, powerupActive := false, completionTime := 0 }

/-- Drag input whose pointer sits 100.5 units left of the anchor: the
int-truncated distance is 100, so the clamp does not fire. -/
def cexInputC7 : Input :=
  { mouse := ⟨99.5, 520⟩, leftPressed := false, leftDown := true, leftReleased := false,
    rightPressed := false, spacePressed := false, key1 := false, key2 := false,
    key3 := false, key4 := false, frameTime := 0, screenHeight := 720 }

/-- An ordinary drag input. -/
def witInputC7 : Input :=
  { mouse := ⟨150, 480⟩, leftPressed := false, leftDown := true, leftReleased := false,
    rightPressed := false, spacePressed := false, key1 := false, key2 := false,
    key3 := false, key4 := false, frameTime := 0, screenHeight := 720 }

/-- A drag input whose pointer sits exactly on the anchor. -/
def witInputC9 : Input :=
  { mouse := ⟨200, 520⟩, leftPressed := false, leftDown := true, leftReleased := false,
    rightPressed := false, spacePressed := false, key1 := false, key2 := false,
    key3 := false, key4 := false, frameTime := 0, screenHeight := 720 }

/-- Concrete projectile used to separate the code's rest-deactivation
window from the claimed one. -/
def cexBallC1 : Ball :=
  { pos := ⟨300, 679.8⟩, vel := ⟨0, -0.6⟩, radius := 40, friction := 0.2,
    elasticity := 0.9, rotationAngle := 0, isSplit := false, isActive := true }

end

/-! Helper lemmas. -/

/-- The score accumulation loop counts 10 per invisible obstacle. -/
theorem foldl_score_eq (obs : List Obstacle) (s : ℤ) :
    obs.foldl (fun a o => if o.visible then a else a + 10) s =
      s + 10 * (obs.countP (fun o => !o.visible) : ℤ) := by
  induction obs generalizing s with
  | nil => simp
  | cons o t ih =>
      rw [List.foldl_cons, ih, List.countP_cons]
      cases h : o.visible <;> (simp [h]; try ring)

/-- Lower bound used to place diagonal probe points. -/
theorem one_le_sqrt_two : (1 : ℝ) ≤ Real.sqrt 2 := by
  rw [show (1 : ℝ) = Real.sqrt 1 from (Real.sqrt_one).symm]
  exact Real.sqrt_le_sqrt (by norm_num)

/-- Upper bound used to fit diagonal probe points inside the game's blocks. -/
theorem sqrt_two_lt_three_halves : Real.sqrt 2 < 1.5 := by
  nlinarith [Real.sq_sqrt (show (0 : ℝ) ≤ 2 by norm_num), Real.sqrt_nonneg 2]

/-- Cosine of the 0-degree probe direction. -/
theorem cos_deg_0 : Real.cos (toRadians 0) = 1 := by
  simp [toRadians]

/-- Sine of the 0-degree probe direction. -/
theorem sin_deg_0 : Real.sin (toRadians 0) = 0 := by
  simp [toRadians]

/-- Cosine of the 45-degree probe direction. -/
theorem cos_deg_45 : Real.cos (toRadians 45) = Real.sqrt 2 / 2 := by
  rw [show toRadians 45 = Real.pi / 4 by unfold toRadians; ring]
  exact Real.cos_pi_div_four

/-- Sine of the 45-degree probe direction. -/
theorem sin_deg_45 : Real.sin (toRadians 45) = Real.sqrt 2 / 2 := by
  rw [show toRadians 45 = Real.pi / 4 by unfold toRadians; ring]
  exact Real.sin_pi_div_four

/-- Cosine of the 90-degree probe direction. -/
theorem cos_deg_90 : Real.cos (toRadians 90) = 0 := by
  rw [show toRadians 90 = Real.pi / 2 by unfold toRadians; ring]
  exact Real.cos_pi_div_two

/-- Sine of the 90-degree probe direction. -/
theorem sin_deg_90 : Real.sin (toRadians 90) = 1 := by
  rw [show toRadians 90 = Real.pi / 2 by unfold toRadians; ring]
  exact Real.sin_pi_div_two

/-- Cosine of the 135-degree probe direction. -/
theorem cos_deg_135 : Real.cos (toRadians 135) = -(Real.sqrt 2 / 2) := by
  rw [show toRadians 135 = Real.pi - Real.pi / 4 by unfold toRadians; ring,
      Real.cos_pi_sub, Real.cos_pi_div_four]

/-- Sine of the 135-degree probe direction. -/
theorem sin_deg_135 : Real.sin (toRadians 135) = Real.sqrt 2 / 2 := by
  rw [show toRadians 135 = Real.pi - Real.pi / 4 by unfold toRadians; ring,
      Real.sin_pi_sub, Real.sin_pi_div_four]

/-- Cosine of the 180-degree probe direction. -/
theorem cos_deg_180 : Real.cos (toRadians 180) = -1 := by
  rw [show toRadians 180 = Real.pi by unfold toRadians; ring]
  exact Real.cos_pi

/-- Sine of the 180-degree probe direction. -/
theorem sin_deg_180 : Real.sin (toRadians 180) = 0 := by
  rw [show toRadians 180 = Real.pi by unfold toRadians; ring]
  exact Real.sin_pi

/-- Cosine of the 225-degree probe direction. -/
theorem cos_deg_225 : Real.cos (toRadians 225) = -(Real.sqrt 2 / 2) := by
  rw [show toRadians 225 = Real.pi + Real.pi / 4 by unfold toRadians; ring,
      Real.cos_add, Real.cos_pi, Real.sin_pi, Real.cos_pi_div_four]
  ring

/-- Sine of the 225-degree probe direction. -/
theorem sin_deg_225 : Real.sin (toRadians 225) = -(Real.sqrt 2 / 2) := by
  rw [show toRadians 225 = Real.pi + Real.pi / 4 by unfold toRadians; ring,
      Real.sin_add, Real.cos_pi, Real.sin_pi, Real.sin_pi_div_four]
  ring

/-- Cosine of the 270-degree probe direction. -/
theorem cos_deg_270 : Real.cos (toRadians 270) = 0 := by
  rw [show toRadians 270 = Real.pi + Real.pi / 2 by unfold toRadians; ring,
      Real.cos_add, Real.cos_pi, Real.sin_pi, Real.cos_pi_div_two]
  ring

/-- Sine of the 270-degree probe direction. -/
theorem sin_deg_270 : Real.sin (toRadians 270) = -1 := by
  rw [show toRadians 270 = Real.pi + Real.pi / 2 by unfold toRadians; ring,
      Real.sin_add, Real.cos_pi, Real.sin_pi, Real.sin_pi_div_two]
  ring

/-- Cosine of the 315-degree probe direction. -/
theorem cos_deg_315 : Real.cos (toRadians 315) = Real.sqrt 2 / 2 := by
  rw [show toRadians 315 = 2 * Real.pi - Real.pi / 4 by unfold toRadians; ring,
      Real.cos_sub, Real.cos_two_pi, Real.sin_two_pi, Real.cos_pi_div_four]
  ring

/-- Sine of the 315-degree probe direction. -/
theorem sin_deg_315 : Real.sin (toRadians 315) = -(Real.sqrt 2 / 2) := by
  rw [show toRadians 315 = 2 * Real.pi - Real.pi / 4 by unfold toRadians; ring,
      Real.sin_sub, Real.cos_two_pi, Real.sin_two_pi, Real.sin_pi_div_four]
  ring

/-- Each spec probe (direction j, full or half radius) is the source probe
point of index j (plus 10 for the half-radius ring). -/
theorem specProbePoint_eq_source (b : Ball) (j : Fin 8) (hv : Bool) :
    specProbePoint b j hv =
      ⟨b.probePosition true (j.val + if hv then 10 else 0),
       b.probePosition false (j.val + if hv then 10 else 0)⟩ := by
  fin_cases j <;> cases hv <;> cases hs : b.isSplit <;>
    (simp only [specProbePoint, Ball.probePosition, collisionProbes, toRadians, hs,
                Vector2.mk.injEq]
     try norm_num [-mul_eq_mul_right_iff, -mul_eq_mul_left_iff]
     all_goals try constructor
     all_goals ring)

/-- Each of the twenty source probe indices yields one of the sixteen spec
probe points (indices 8, 9, 18 and 19 duplicate the 0-degree probes). -/
theorem probe_index_to_spec (b : Ball) (i : ℕ) (hi : i < 20) :
    ∃ (j : Fin 8) (hf : Bool),
      (⟨b.probePosition true i, b.probePosition false i⟩ : Vector2) =
        specProbePoint b j hf := by
  interval_cases i
  · exact ⟨0, false, by simpa using (specProbePoint_eq_source b 0 false).symm⟩
  · exact ⟨1, false, by simpa using (specProbePoint_eq_source b 1 false).symm⟩
  · exact ⟨2, false, by simpa using (specProbePoint_eq_source b 2 false).symm⟩
  · exact ⟨3, false, by simpa using (specProbePoint_eq_source b 3 false).symm⟩
  · exact ⟨4, false, by simpa using (specProbePoint_eq_source b 4 false).symm⟩
  · exact ⟨5, false, by simpa using (specProbePoint_eq_source b 5 false).symm⟩
  · exact ⟨6, false, by simpa using (specProbePoint_eq_source b 6 false).symm⟩
  · exact ⟨7, false, by simpa using (specProbePoint_eq_source b 7 false).symm⟩
  · exact ⟨0, false, by
      have h := (specProbePoint_eq_source b 0 false).symm
      simp only [Ball.probePosition, collisionProbes] at h ⊢
      norm_num at h ⊢
      exact h⟩
  · exact ⟨0, false, by
      have h := (specProbePoint_eq_source b 0 false).symm
      simp only [Ball.probePosition, collisionProbes] at h ⊢
      norm_num at h ⊢
      exact h⟩
  · exact ⟨0, true, by simpa using (specProbePoint_eq_source b 0 true).symm⟩
  · exact ⟨1, true, by simpa using (specProbePoint_eq_source b 1 true).symm⟩
  · exact ⟨2, true, by simpa using (specProbePoint_eq_source b 2 true).symm⟩
  · exact ⟨3, true, by simpa using (specProbePoint_eq_source b 3 true).symm⟩
  · exact ⟨4, true, by simpa using (specProbePoint_eq_source b 4 true).symm⟩
  · exact ⟨5, true, by simpa using (specProbePoint_eq_source b 5 true).symm⟩
  · exact ⟨6, true, by simpa using (specProbePoint_eq_source b 6 true).symm⟩
  · exact ⟨7, true, by simpa using (specProbePoint_eq_source b 7 true).symm⟩
  · exact ⟨0, true, by
      have h := (specProbePoint_eq_source b 0 true).symm
      simp only [Ball.probePosition, collisionProbes] at h ⊢
      norm_num at h ⊢
      exact h⟩
  · exact ⟨0, true, by
      have h := (specProbePoint_eq_source b 0 true).symm
      simp only [Ball.probePosition, collisionProbes] at h ⊢
      norm_num at h ⊢
      exact h⟩

/-! Claim C2: the collision probe set. -/

/-- C2: CollidesWith holds exactly when the obstacle is visible, the
projectile active, and one of the sixteen spec probe points (eight
45-degree directions at the effective radius and at half of it) is inside
the obstacle's rectangle; for an invisible obstacle or inactive projectile
it is false. -/
theorem claim2_probe_set (b : Ball) (o : Obstacle) :
    b.collidesWith o ↔
      o.visible = true ∧ b.isActive = true ∧
        ∃ (j : Fin 8) (half : Bool),
          checkCollisionPointRec (specProbePoint b j half) o.rect := by
  unfold Ball.collidesWith
  constructor
  · rintro ⟨hv, ha, i, hi, hin⟩
    refine ⟨hv, ha, ?_⟩
    obtain ⟨j, hf, hpt⟩ := probe_index_to_spec b i (by simpa [PROBE_QUANTITY] using hi)
    exact ⟨j, hf, by rwa [hpt] at hin⟩
  · rintro ⟨hv, ha, j, hf, hin⟩
    refine ⟨hv, ha, j.val + (if hf then 10 else 0), ?_, ?_⟩
    · have hj := j.isLt
      cases hf <;> simp [PROBE_QUANTITY] <;> omega
    · rw [specProbePoint_eq_source b j hf] at hin
      exact hin

/-! Claim C1: the integrator tick. -/

/-- C1 counterexample: at this concrete projectile the code deactivates
(final pos.y is 679.2 with ground 720 and radius 40, within the code's
radius-plus-one window) while the claimed tick keeps it active (the final
position is more than one radius from the ground line), so the tick claimed
by C1 disagrees with the code. -/
theorem claim1_integrator_counterexample :
    integrateBall 720 cexBallC1 ≠ claimTick 720 cexBallC1 := by
  intro h
  have h2 := congrArg Ball.isActive h
  have hL : (integrateBall 720 cexBallC1).isActive = false := by
    simp only [integrateBall, cexBallC1, GRAVITY]
    norm_num [abs_lt]
  have hR : (claimTick 720 cexBallC1).isActive = true := by
    simp only [claimTick, cexBallC1, GRAVITY]
    norm_num [abs_lt, abs_le]
  rw [hL, hR] at h2
  exact Bool.false_ne_true h2

/-- C1 amended: one integrator tick performs, in the claimed order, the
ground clamp with vertical-velocity reflection, the position update, the
gravity increment (after the position update), the unconditional friction
damping of both components and the fixed rotation increment, and afterwards
deactivates the projectile if and only if both velocity components have
magnitude below 0.1 and the final pos.y exceeds groundY - radius - 1
(i.e. the projectile is within one radius plus one unit of the ground
line, not within one radius as claimed). -/
theorem claim1_integrator_amended (screenHeight : ℝ) (b : Ball) :
    integrateBall screenHeight b = amendedTick screenHeight b := rfl

/-! Claim C8: soundness samples of the probe test. -/

/-- C8 counterexample: this projectile's center coincides with the center of
this visible obstacle, yet no collision is registered, because the obstacle
(one unit square) is smaller than the inner probe ring; the claimed
center-coincidence property is false for arbitrary obstacles. -/
theorem claim8_counterexample :
    cexBallC8.isActive = true ∧ cexObstacleC8.visible = true ∧
      cexBallC8.pos.x = cexObstacleC8.rect.x + cexObstacleC8.rect.width / 2 ∧
      cexBallC8.pos.y = cexObstacleC8.rect.y + cexObstacleC8.rect.height / 2 ∧
      ¬ cexBallC8.collidesWith cexObstacleC8 := by
  refine ⟨rfl, rfl, by norm_num [cexBallC8, cexObstacleC8],
          by norm_num [cexBallC8, cexObstacleC8], ?_⟩
  rintro ⟨-, -, i, hi, hin⟩
  norm_num [PROBE_QUANTITY] at hi
  have h1 := one_le_sqrt_two
  interval_cases i <;>
    (simp only [cexBallC8, cexObstacleC8, Ball.probePosition, collisionProbes,
                checkCollisionPointRec] at hin
     norm_num [cos_deg_0, sin_deg_0, cos_deg_45, sin_deg_45, cos_deg_90, sin_deg_90,
               cos_deg_135, sin_deg_135, cos_deg_180, sin_deg_180, cos_deg_225,
               sin_deg_225, cos_deg_270, sin_deg_270, cos_deg_315, sin_deg_315] at hin
     try obtain ⟨h2, h3, h4, h5⟩ := hin
     try linarith)

/-- C8 amended: if the projectile's center coincides with the obstacle's
center and the obstacle's half-extents strictly exceed the inner diagonal
probe offset (effective radius times sqrt 2 over 4) - which holds for every
block of the game's levels - then a collision registers; and if every probe
point is strictly outside the rectangle, no collision registers. -/
theorem claim8_soundness_amended :
    (∀ (b : Ball) (o : Obstacle),
        b.isActive = true → o.visible = true → 0 ≤ b.radius →
        b.pos.x = o.rect.x + o.rect.width / 2 →
        b.pos.y = o.rect.y + o.rect.height / 2 →
        b.effectiveRadius * Real.sqrt 2 / 4 < o.rect.width / 2 →
        b.effectiveRadius * Real.sqrt 2 / 4 < o.rect.height / 2 →
        b.collidesWith o) ∧
    (∀ (b : Ball) (o : Obstacle),
        (∀ i, i < PROBE_QUANTITY * 2 →
          strictlyOutside ⟨b.probePosition true i, b.probePosition false i⟩ o.rect) →
        ¬ b.collidesWith o) := by
  constructor
  · intro b o ha hv hr hx hy h6 h7
    simp only [Ball.effectiveRadius] at h6 h7
    refine ⟨hv, ha, 11, by norm_num [PROBE_QUANTITY], ?_⟩
    have hs0 : 0 ≤ Real.sqrt 2 := Real.sqrt_nonneg 2
    have hrs := mul_nonneg hr hs0
    cases hsp : b.isSplit <;>
      (simp only [hsp] at h6 h7
       norm_num at h6 h7
       simp only [Ball.probePosition, collisionProbes, checkCollisionPointRec, hsp]
       norm_num [cos_deg_45, sin_deg_45]
       refine ⟨?_, ?_, ?_, ?_⟩ <;> simp only [hx, hy] <;> nlinarith)
  · intro b o hall
    rintro ⟨-, -, i, hi, hin⟩
    rcases hall i hi with h | h | h | h
    · exact absurd hin.1 (by simpa using not_le.mpr h)
    · exact absurd hin.2.1 (by simpa using not_lt.mpr (le_of_lt h))
    · exact absurd hin.2.2.1 (by simpa using not_le.mpr h)
    · exact absurd hin.2.2.2 (by simpa using not_lt.mpr (le_of_lt h))

/-- C8 witness: a radius-40 projectile centered on a 30 x 40 block collides
with it, and registers nothing against a distant block all probes are
strictly outside of. -/
theorem claim8_soundness_witness :
    witBallC8.collidesWith witObstacleC8 ∧
      ¬ witBallC8.collidesWith witFarObstacleC8 := by
  have hlt := sqrt_two_lt_three_halves
  have hge := one_le_sqrt_two
  constructor
  · refine claim8_soundness_amended.1 witBallC8 witObstacleC8 rfl rfl (by norm_num [witBallC8])
      (by norm_num [witBallC8, witObstacleC8]) (by norm_num [witBallC8, witObstacleC8])
      ?_ ?_ <;>
      (simp only [Ball.effectiveRadius, witBallC8, witObstacleC8]
       norm_num
       nlinarith)
  · refine claim8_soundness_amended.2 witBallC8 witFarObstacleC8 ?_
    intro i hi
    left
    simp only [Ball.probePosition, witBallC8, witFarObstacleC8]
    have hc := Real.cos_le_one (toRadians (collisionProbes i))
    have hc2 := Real.neg_one_le_cos (toRadians (collisionProbes i))
    norm_num
    split_ifs <;> nlinarith

/-! Claim C3: the split power-up. -/

/-- The speed times the cosine of the atan2 angle recovers the x component. -/
theorem speed_mul_cos_atan2 (x y : ℝ) :
    Real.sqrt (x * x + y * y) * Real.cos (atan2 y x) = x := by
  by_cases h : x = 0 ∧ y = 0
  · simp [h.1, h.2, atan2]
  · have hz : (⟨x, y⟩ : ℂ) ≠ 0 := by
      intro hq
      rw [Complex.ext_iff] at hq
      simp only [Complex.zero_re, Complex.zero_im] at hq
      exact h ⟨hq.1, hq.2⟩
    have habs : Complex.abs ⟨x, y⟩ = Real.sqrt (x * x + y * y) := by
      rw [Complex.abs_apply, Complex.normSq_mk]
    have hne : Complex.abs ⟨x, y⟩ ≠ 0 := Complex.abs.ne_zero hz
    rw [atan2, Complex.cos_arg hz, ← habs]
    field_simp

/-- The speed times the sine of the atan2 angle recovers the y component. -/
theorem speed_mul_sin_atan2 (x y : ℝ) :
    Real.sqrt (x * x + y * y) * Real.sin (atan2 y x) = y := by
  by_cases h : x = 0 ∧ y = 0
  · simp [h.1, h.2, atan2]
  · have hz : (⟨x, y⟩ : ℂ) ≠ 0 := by
      intro hq
      rw [Complex.ext_iff] at hq
      simp only [Complex.zero_re, Complex.zero_im] at hq
      exact h ⟨hq.1, hq.2⟩
    have habs : Complex.abs ⟨x, y⟩ = Real.sqrt (x * x + y * y) := by
      rw [Complex.abs_apply, Complex.normSq_mk]
    have hne : Complex.abs ⟨x, y⟩ ≠ 0 := Complex.abs.ne_zero hz
    rw [atan2, Complex.sin_arg, ← habs]
    field_simp

/-- A split ball's velocity is the parent velocity rotated by the offset. -/
theorem createSplitBall_vel (b : Ball) (d : ℝ) :
    (b.createSplitBall d).vel = rotate (toRadians d) b.vel := by
  have h1 := speed_mul_cos_atan2 b.vel.x b.vel.y
  have h2 := speed_mul_sin_atan2 b.vel.x b.vel.y
  simp only [Ball.createSplitBall, rotate, Vector2.mk.injEq]
  constructor
  · rw [Real.cos_add]
    linear_combination Real.cos (toRadians d) * h1 - Real.sin (toRadians d) * h2
  · rw [Real.sin_add]
    linear_combination Real.sin (toRadians d) * h1 + Real.cos (toRadians d) * h2

/-- Rotation preserves the magnitude of a vector. -/
theorem mag_rotate (a : ℝ) (v : Vector2) : mag (rotate a v) = mag v := by
  simp only [mag, rotate]
  congr 1
  linear_combination (v.x ^ 2 + v.y ^ 2) * Real.sin_sq_add_cos_sq a

/-- C3 counterexample: all the claimed preconditions except activity of the
main projectile hold here, the ball being inactive, and the claimed no-op
fails: the call still deducts the power-up cost (and splits the ball). -/
theorem claim3_counterexample :
    cexWorldC3.canUsePowerup = true ∧ cexWorldC3.launched = true ∧
      cexWorldC3.ball.isSplit = false ∧ cexWorldC3.splitBalls = [] ∧
      cexWorldC3.totalScore = 50 ∧ cexWorldC3.ball.isActive = false ∧
      cexWorldC3.activateSplitPowerup ≠ cexWorldC3 := by
  refine ⟨rfl, rfl, rfl, rfl, rfl, rfl, ?_⟩
  intro h
  have h2 := congrArg GameWorld.totalScore h
  rw [show cexWorldC3.activateSplitPowerup.totalScore = 0 by
        norm_num [GameWorld.activateSplitPowerup, cexWorldC3, powerupCost]] at h2
  norm_num [cexWorldC3] at h2

/-- C3 amended: when the power-up is affordable (canUsePowerup, maintained
by Update as totalScore at least the cost), the ball is launched, not
already split, and no split balls exist, ActivateSplitPowerup appends
exactly the two split balls (velocity rotated by -30 and +30 degrees with
unchanged magnitude, radius scaled by 0.7, marked split), marks the parent
split, scales its radius by 0.7 and deducts exactly 50 points; when
affordability, launch, non-split or absence of split balls fails, the call
is a no-op.  Activity of the main projectile is not checked: an inactive
main projectile is still split (see the counterexample). -/
theorem claim3_split_amended :
    (∀ w : GameWorld,
        w.canUsePowerup = decide (powerupCost ≤ w.totalScore) →
        powerupCost ≤ w.totalScore →
        w.launched = true → w.ball.isSplit = false → w.splitBalls = [] →
        w.activateSplitPowerup.splitBalls =
            [w.ball.createSplitBall (-30), w.ball.createSplitBall 30] ∧
          (w.ball.createSplitBall (-30)).vel = rotate (toRadians (-30)) w.ball.vel ∧
          (w.ball.createSplitBall 30).vel = rotate (toRadians 30) w.ball.vel ∧
          mag (w.ball.createSplitBall (-30)).vel = mag w.ball.vel ∧
          mag (w.ball.createSplitBall 30).vel = mag w.ball.vel ∧
          (w.ball.createSplitBall (-30)).isSplit = true ∧
          (w.ball.createSplitBall 30).isSplit = true ∧
          (w.ball.createSplitBall (-30)).radius = w.ball.radius * 0.7 ∧
          (w.ball.createSplitBall 30).radius = w.ball.radius * 0.7 ∧
          w.activateSplitPowerup.ball.isSplit = true ∧
          w.activateSplitPowerup.ball.radius = w.ball.radius * 0.7 ∧
          w.activateSplitPowerup.totalScore = w.totalScore - 50) ∧
    (∀ w : GameWorld,
        w.canUsePowerup = false ∨ w.launched = false ∨ w.ball.isSplit = true ∨
          w.splitBalls ≠ [] →
        w.activateSplitPowerup = w) := by
  constructor
  · intro w hlink hscore hlaunch hsplit hsb
    have hcan : w.canUsePowerup = true := by
      rw [hlink, decide_eq_true_eq]
      exact hscore
    refine ⟨?_, createSplitBall_vel w.ball (-30), createSplitBall_vel w.ball 30,
        ?_, ?_, rfl, rfl, rfl, rfl, ?_, ?_, ?_⟩
    · simp [GameWorld.activateSplitPowerup, hcan, hlaunch, hsplit, hsb]
    · rw [createSplitBall_vel]
      exact mag_rotate _ _
    · rw [createSplitBall_vel]
      exact mag_rotate _ _
    · simp [GameWorld.activateSplitPowerup, hcan, hlaunch, hsplit, hsb]
    · simp [GameWorld.activateSplitPowerup, hcan, hlaunch, hsplit, hsb]
    · simp [GameWorld.activateSplitPowerup, hcan, hlaunch, hsplit, hsb, powerupCost]
  · intro w hfail
    have hguard : w.canUsePowerup = false ∨ w.launched = false ∨
        w.ball.isSplit = true ∨ 0 < w.splitBalls.length := by
      rcases hfail with h | h | h | h
      · exact Or.inl h
      · exact Or.inr (Or.inl h)
      · exact Or.inr (Or.inr (Or.inl h))
      · exact Or.inr (Or.inr (Or.inr (List.length_pos.mpr h)))
    rw [GameWorld.activateSplitPowerup, if_pos hguard]

/-- C3 witness: on a concrete affordable in-flight world the power-up costs
exactly 50 points, and on a concrete not-launched world it is a no-op. -/
theorem claim3_split_witness :
    witWorldC3.activateSplitPowerup.totalScore = witWorldC3.totalScore - 50 ∧
      witWorldC3b.activateSplitPowerup = witWorldC3b :=
  ⟨(claim3_split_amended.1 witWorldC3 (by norm_num [witWorldC3, powerupCost])
      (by norm_num [witWorldC3, powerupCost]) rfl rfl rfl).2.2.2.2.2.2.2.2.2.2.2,
   claim3_split_amended.2 witWorldC3b (Or.inr (Or.inl rfl))⟩

/-! Claim C4: the score invariant. -/

/-- C4: in every level state, GetCurrentScore equals 10 times the number of
invisible obstacles, hence is a multiple of 10 and at most 10 times the
number of obstacles of the level. -/
theorem claim4_score_invariant (l : Level) :
    l.currentScore = 10 * (l.obstacles.countP (fun o => !o.visible) : ℤ) ∧
      (10 : ℤ) ∣ l.currentScore ∧
      l.currentScore ≤ 10 * (l.obstacles.length : ℤ) := by
  have h := foldl_score_eq l.obstacles 0
  have hs : l.currentScore = 10 * (l.obstacles.countP (fun o => !o.visible) : ℤ) := by
    simpa [Level.currentScore] using h
  refine ⟨hs, ⟨_, hs⟩, ?_⟩
  rw [hs]
  have hc : l.obstacles.countP (fun o => !o.visible) ≤ l.obstacles.length :=
    List.countP_le_length _
  have : ((l.obstacles.countP (fun o => !o.visible) : ℤ)) ≤ (l.obstacles.length : ℤ) := by
    exact_mod_cast hc
  linarith

/-! Claims C7 and C9: the launch controller. -/

/-- Truncation of a nonnegative real is the floor. -/
theorem trunc_of_nonneg {x : ℝ} (h : 0 ≤ x) : trunc x = ⌊x⌋ := if_pos h

/-- Truncation toward zero never grows the magnitude. -/
theorem abs_trunc_le (x : ℝ) : |((trunc x : ℤ) : ℝ)| ≤ |x| := by
  unfold trunc
  rcases le_or_lt 0 x with h | h
  · rw [if_pos h, abs_of_nonneg h, abs_of_nonneg (by exact_mod_cast Int.floor_nonneg.mpr h)]
    exact Int.floor_le x
  · rw [if_neg (not_le.mpr h), abs_of_neg h, abs_of_nonpos (by
      exact_mod_cast Int.ceil_le.mpr (by exact_mod_cast h.le))]
    exact neg_le_neg (Int.le_ceil x)

/-- Truncation toward zero loses less than one unit of magnitude. -/
theorem abs_lt_trunc_add_one (x : ℝ) : |x| < |((trunc x : ℤ) : ℝ)| + 1 := by
  unfold trunc
  rcases le_or_lt 0 x with h | h
  · rw [if_pos h, abs_of_nonneg h, abs_of_nonneg (by exact_mod_cast Int.floor_nonneg.mpr h)]
    exact Int.lt_floor_add_one x
  · rw [if_neg (not_le.mpr h), abs_of_neg h, abs_of_nonpos (by
      exact_mod_cast Int.ceil_le.mpr (by exact_mod_cast h.le))]
    have := Int.ceil_lt_add_one x
    linarith

/-- The elementary bound behind the launch-speed estimates. -/
theorem launch_bound_aux (A B s m : ℝ) (hA0 : 0 ≤ A) (hB0 : 0 ≤ B) (hA : A ≤ m)
    (hB : B ≤ m) (hcs : Real.sin s ^ 2 + Real.cos s ^ 2 = 1) :
    (A / 100 * Real.cos s * 40) ^ 2 + (-(B / 100) * Real.sin s * 40) ^ 2 ≤
      (40 * (m / 100)) ^ 2 := by
  have hA2 : A ^ 2 ≤ m ^ 2 := by nlinarith
  have hB2 : B ^ 2 ≤ m ^ 2 := by nlinarith
  have h3 := mul_le_mul_of_nonneg_right hA2 (sq_nonneg (Real.cos s))
  have h4 := mul_le_mul_of_nonneg_right hB2 (sq_nonneg (Real.sin s))
  nlinarith [h3, h4]

/-- The truncated offsets are bounded by 100 whenever the truncated
distance does not exceed 100. -/
theorem drag_offsets_bounded (inp : Input) (w : GameWorld)
    (h : ¬ dragDist inp w > 100) :
    |dragDx inp w| ≤ 100 ∧ |dragDy inp w| ≤ 100 := by
  set dx := dragDx inp w with hdx
  set dy := dragDy inp w with hdy
  have hld : dragDist inp w ≤ 100 := not_lt.mp h
  have hS0 : (0 : ℝ) ≤ ((dx * dx + dy * dy : ℤ) : ℝ) := by
    push_cast
    nlinarith [mul_self_nonneg ((dx : ℝ)), mul_self_nonneg ((dy : ℝ))]
  have hfl : dragDist inp w = ⌊Real.sqrt ((dx * dx + dy * dy : ℤ) : ℝ)⌋ :=
    trunc_of_nonneg (Real.sqrt_nonneg _)
  have hldR : ((dragDist inp w : ℤ) : ℝ) ≤ 100 := by exact_mod_cast hld
  have hsq : Real.sqrt ((dx * dx + dy * dy : ℤ) : ℝ) < 101 := by
    have h1 := Int.lt_floor_add_one (Real.sqrt ((dx * dx + dy * dy : ℤ) : ℝ))
    rw [← hfl] at h1
    linarith
  have hSlt : ((dx * dx + dy * dy : ℤ) : ℝ) < 10201 := by
    nlinarith [Real.sq_sqrt hS0, Real.sqrt_nonneg ((dx * dx + dy * dy : ℤ) : ℝ)]
  have hint : dx * dx + dy * dy < 10201 := by exact_mod_cast hSlt
  have hx1 : 202 * dx ≤ 20401 := by nlinarith [sq_nonneg (dx - 101), mul_self_nonneg dy]
  have hx2 : -20401 ≤ 202 * dx := by nlinarith [sq_nonneg (dx + 101), mul_self_nonneg dy]
  have hy1 : 202 * dy ≤ 20401 := by nlinarith [sq_nonneg (dy - 101), mul_self_nonneg dx]
  have hy2 : -20401 ≤ 202 * dy := by nlinarith [sq_nonneg (dy + 101), mul_self_nonneg dx]
  constructor <;> rw [abs_le] <;> omega

/-- C7 amended: the drag point is clamped exactly onto the circle of radius
LAUNCH_MAX_DISTANCE around the anchor when the INT-TRUNCATED distance
trunc(sqrt(trunc(dx)^2 + trunc(dy)^2)) exceeds 100 (a real distance of up
to about 101.4 can escape the clamp), the clamped launch speed is at most
VELOCITY_MULTIPLIER, and the launch speed in general is at most
VELOCITY_MULTIPLIER * 101/100 = 40.4 (not VELOCITY_MULTIPLIER). -/
theorem claim7_launch_amended (inp : Input) (w : GameWorld)
    (h1 : inp.leftDown = true) (h2 : w.selected = true) :
    (dragDist inp w > 100 →
        ((dragPhase inp w).ball.pos.x - w.xStart) ^ 2 +
            ((dragPhase inp w).ball.pos.y - w.yStart) ^ 2 = LAUNCH_MAX_DISTANCE ^ 2 ∧
          ((dragPhase inp w).ball.vel.x) ^ 2 + ((dragPhase inp w).ball.vel.y) ^ 2 ≤
            VELOCITY_MULTIPLIER ^ 2) ∧
      ((dragPhase inp w).ball.vel.x) ^ 2 + ((dragPhase inp w).ball.vel.y) ^ 2 ≤
        (VELOCITY_MULTIPLIER * (101 / 100)) ^ 2 := by
  have hpos : (dragPhase inp w).ball.pos = dragClampedPos inp w := by
    simp [dragPhase, h1, h2]
  have hvel : (dragPhase inp w).ball.vel = dragVel inp w := by
    simp [dragPhase, h1, h2]
  rw [hpos, hvel]
  have hcs := Real.sin_sq_add_cos_sq (dragLaunchAngle inp w)
  constructor
  · intro hc
    constructor
    · simp only [dragClampedPos, if_pos hc, LAUNCH_MAX_DISTANCE]
      linear_combination (10000 : ℝ) * Real.sin_sq_add_cos_sq (dragRel inp w)
    · simp only [dragVel, dragClampedPos, if_pos hc, LAUNCH_MAX_DISTANCE,
                 VELOCITY_MULTIPLIER]
      rw [show w.xStart + Real.cos (dragRel inp w) * 100 - w.xStart =
            Real.cos (dragRel inp w) * 100 from by ring,
          show w.yStart + Real.sin (dragRel inp w) * 100 - w.yStart =
            Real.sin (dragRel inp w) * 100 from by ring]
      have hA : |Real.cos (dragRel inp w) * 100| ≤ 100 := by
        rw [abs_mul]
        have := Real.abs_cos_le_one (dragRel inp w)
        rw [abs_of_nonneg (by norm_num : (0:ℝ) ≤ 100)]
        nlinarith
      have hB : |Real.sin (dragRel inp w) * 100| ≤ 100 := by
        rw [abs_mul]
        have := Real.abs_sin_le_one (dragRel inp w)
        rw [abs_of_nonneg (by norm_num : (0:ℝ) ≤ 100)]
        nlinarith
      have := launch_bound_aux |Real.cos (dragRel inp w) * 100|
        |Real.sin (dragRel inp w) * 100| (dragLaunchAngle inp w) 100 (abs_nonneg _)
        (abs_nonneg _) hA hB hcs
      calc (|Real.cos (dragRel inp w) * 100| / 100 * Real.cos (dragLaunchAngle inp w) * 40) ^ 2 +
            (-(|Real.sin (dragRel inp w) * 100| / 100) * Real.sin (dragLaunchAngle inp w) * 40) ^ 2 ≤
          (40 * ((100 : ℝ) / 100)) ^ 2 := this
        _ = 40 ^ 2 := by norm_num
  · by_cases hc : dragDist inp w > 100
    · simp only [dragVel, dragClampedPos, if_pos hc, LAUNCH_MAX_DISTANCE,
                 VELOCITY_MULTIPLIER]
      rw [show w.xStart + Real.cos (dragRel inp w) * 100 - w.xStart =
            Real.cos (dragRel inp w) * 100 from by ring,
          show w.yStart + Real.sin (dragRel inp w) * 100 - w.yStart =
            Real.sin (dragRel inp w) * 100 from by ring]
      have hA : |Real.cos (dragRel inp w) * 100| ≤ 101 := by
        rw [abs_mul]
        have := Real.abs_cos_le_one (dragRel inp w)
        rw [abs_of_nonneg (by norm_num : (0:ℝ) ≤ 100)]
        nlinarith
      have hB : |Real.sin (dragRel inp w) * 100| ≤ 101 := by
        rw [abs_mul]
        have := Real.abs_sin_le_one (dragRel inp w)
        rw [abs_of_nonneg (by norm_num : (0:ℝ) ≤ 100)]
        nlinarith
      exact launch_bound_aux _ _ _ 101 (abs_nonneg _) (abs_nonneg _) hA hB hcs
    · simp only [dragVel, dragClampedPos, if_neg hc, LAUNCH_MAX_DISTANCE,
                 VELOCITY_MULTIPLIER]
      obtain ⟨hbx, hby⟩ := drag_offsets_bounded inp w hc
      have hbxR : |((dragDx inp w : ℤ) : ℝ)| ≤ 100 := by exact_mod_cast hbx
      have hbyR : |((dragDy inp w : ℤ) : ℝ)| ≤ 100 := by exact_mod_cast hby
      have hAx : |(dragPos inp w).x - w.xStart| ≤ 101 := by
        rw [abs_sub_comm]
        have h3 := abs_lt_trunc_add_one (w.xStart - (dragPos inp w).x)
        rw [show trunc (w.xStart - (dragPos inp w).x) = dragDx inp w from rfl] at h3
        linarith
      have hAy : |(dragPos inp w).y - w.yStart| ≤ 101 := by
        rw [abs_sub_comm]
        have h3 := abs_lt_trunc_add_one (w.yStart - (dragPos inp w).y)
        rw [show trunc (w.yStart - (dragPos inp w).y) = dragDy inp w from rfl] at h3
        linarith
      exact launch_bound_aux _ _ _ 101 (abs_nonneg _) (abs_nonneg _) hAx hAy hcs

/-- C7 counterexample: pointer 100.5 units from the anchor (farther than
LAUNCH_MAX_DISTANCE): the int-truncated distance is exactly 100, so the
claimed clamp never fires (position stays unclamped) and the resulting
launch speed is 40.2, exceeding VELOCITY_MULTIPLIER. -/
theorem claim7_counterexample :
    ((dragPos cexInputC7 dragWorld).x - dragWorld.xStart) ^ 2 +
        ((dragPos cexInputC7 dragWorld).y - dragWorld.yStart) ^ 2 >
      LAUNCH_MAX_DISTANCE ^ 2 ∧
      (dragPhase cexInputC7 dragWorld).ball.pos = dragPos cexInputC7 dragWorld ∧
      Real.sqrt (((dragPhase cexInputC7 dragWorld).ball.vel.x) ^ 2 +
          ((dragPhase cexInputC7 dragWorld).ball.vel.y) ^ 2) > VELOCITY_MULTIPLIER := by
  have hdposx : (dragPos cexInputC7 dragWorld).x = 99.5 := by
    norm_num [dragPos, cexInputC7, dragWorld]
  have hdposy : (dragPos cexInputC7 dragWorld).y = 520 := by
    norm_num [dragPos, cexInputC7, dragWorld]
  have hxs : dragWorld.xStart = 200 := rfl
  have hys : dragWorld.yStart = 520 := rfl
  have hdx : dragDx cexInputC7 dragWorld = 100 := by
    unfold dragDx
    rw [hdposx, hxs, show (200 : ℝ) - 99.5 = 100.5 from by norm_num,
        trunc_of_nonneg (by norm_num : (0:ℝ) ≤ 100.5)]
    rw [Int.floor_eq_iff]
    norm_num
  have hdy : dragDy cexInputC7 dragWorld = 0 := by
    unfold dragDy
    rw [hdposy, hys, sub_self, trunc_of_nonneg le_rfl, Int.floor_zero]
  have hdist : dragDist cexInputC7 dragWorld = 100 := by
    unfold dragDist
    rw [hdx, hdy]
    rw [show ((100 * 100 + 0 * 0 : ℤ) : ℝ) = (100 : ℝ) ^ 2 from by norm_num,
        Real.sqrt_sq (by norm_num : (0:ℝ) ≤ 100),
        trunc_of_nonneg (by norm_num : (0:ℝ) ≤ 100)]
    rw [Int.floor_eq_iff]
    norm_num
  have hrel : dragRel cexInputC7 dragWorld = Real.pi := by
    unfold dragRel
    rw [hdx, hdy]
    have h0 : atan2 ((0 : ℤ) : ℝ) ((100 : ℤ) : ℝ) = 0 := by
      unfold atan2
      rw [show (⟨((100 : ℤ) : ℝ), ((0 : ℤ) : ℝ)⟩ : ℂ) = (((100 : ℝ)) : ℂ) from by
        rw [Complex.ext_iff]
        constructor <;> simp]
      exact Complex.arg_ofReal_of_nonneg (by norm_num)
    rw [h0, zero_add]
  have hla : dragLaunchAngle cexInputC7 dragWorld = 0 := by
    unfold dragLaunchAngle
    rw [hrel, sub_self]
  have hclamp : dragClampedPos cexInputC7 dragWorld = dragPos cexInputC7 dragWorld := by
    unfold dragClampedPos
    rw [hdist]
    norm_num
  have hcond : cexInputC7.leftDown = true ∧ dragWorld.selected = true := ⟨rfl, rfl⟩
  have hposeq : (dragPhase cexInputC7 dragWorld).ball.pos = dragClampedPos cexInputC7 dragWorld := by
    unfold dragPhase
    rw [if_pos hcond]
  have hveleq : (dragPhase cexInputC7 dragWorld).ball.vel = dragVel cexInputC7 dragWorld := by
    unfold dragPhase
    rw [if_pos hcond]
  have hvx : (dragVel cexInputC7 dragWorld).x = 40.2 := by
    unfold dragVel
    rw [hclamp, hdposx, hxs, hla, Real.cos_zero]
    norm_num [LAUNCH_MAX_DISTANCE, VELOCITY_MULTIPLIER, abs_of_nonneg]
  have hvy : (dragVel cexInputC7 dragWorld).y = 0 := by
    unfold dragVel
    rw [hclamp, hla, Real.sin_zero]
    norm_num
  refine ⟨?_, ?_, ?_⟩
  · rw [hdposx, hdposy, hxs, hys]
    norm_num [LAUNCH_MAX_DISTANCE]
  · rw [hposeq, hclamp]
  · rw [hveleq, hvx, hvy]
    rw [show ((40.2 : ℝ)) ^ 2 + (0 : ℝ) ^ 2 = 1616.04 from by norm_num]
    rw [show (VELOCITY_MULTIPLIER : ℝ) = Real.sqrt 1600 from by
      rw [show (1600 : ℝ) = 40 ^ 2 from by norm_num,
          Real.sqrt_sq (by norm_num : (0:ℝ) ≤ 40)]
      rfl]
    exact Real.sqrt_lt_sqrt (by norm_num) (by norm_num)

/-- C7 witness: a concrete drag obeys the amended launch-speed bound. -/
theorem claim7_launch_witness :
    ((dragPhase witInputC7 dragWorld).ball.vel.x) ^ 2 +
        ((dragPhase witInputC7 dragWorld).ball.vel.y) ^ 2 ≤
      (VELOCITY_MULTIPLIER * (101 / 100)) ^ 2 :=
  (claim7_launch_amended witInputC7 dragWorld rfl rfl).2

/-- C9: a zero-length drag vector is processed totally and produces exactly
the zero launch velocity (atan2(0,0) is taken as the defined angle of the
zero complex number), with the ball left at the anchor. -/
theorem claim9_zero_drag (inp : Input) (w : GameWorld)
    (h1 : inp.leftDown = true) (h2 : w.selected = true)
    (hax : (dragPos inp w).x = w.xStart) (hay : (dragPos inp w).y = w.yStart) :
    (dragPhase inp w).ball.vel = ⟨0, 0⟩ ∧
      (dragPhase inp w).ball.pos = ⟨w.xStart, w.yStart⟩ := by
  have hdx : dragDx inp w = 0 := by
    unfold dragDx
    rw [hax, sub_self, trunc_of_nonneg le_rfl, Int.floor_zero]
  have hdy : dragDy inp w = 0 := by
    unfold dragDy
    rw [hay, sub_self, trunc_of_nonneg le_rfl, Int.floor_zero]
  have hdist : dragDist inp w = 0 := by
    unfold dragDist
    rw [hdx, hdy]
    rw [show ((0 * 0 + 0 * 0 : ℤ) : ℝ) = 0 from by norm_num, Real.sqrt_zero,
        trunc_of_nonneg le_rfl, Int.floor_zero]
  have hclamp : dragClampedPos inp w = dragPos inp w := by
    unfold dragClampedPos
    rw [hdist]
    norm_num
  have hvel : (dragPhase inp w).ball.vel = dragVel inp w := by
    simp [dragPhase, h1, h2]
  have hpos : (dragPhase inp w).ball.pos = dragClampedPos inp w := by
    simp [dragPhase, h1, h2]
  refine ⟨?_, ?_⟩
  · rw [hvel]
    unfold dragVel
    rw [hclamp, hax, hay, sub_self, abs_zero]
    norm_num
  · rw [hpos, hclamp, show dragPos inp w =
      (⟨(dragPos inp w).x, (dragPos inp w).y⟩ : Vector2) from rfl, hax, hay]

/-- C9 witness: dragging with the pointer exactly on the anchor yields the
zero launch velocity. -/
theorem claim9_zero_drag_witness :
    (dragPhase witInputC9 dragWorld).ball.vel = ⟨0, 0⟩ :=
  (claim9_zero_drag witInputC9 dragWorld rfl rfl
    (by norm_num [dragPos, witInputC9, dragWorld])
    (by norm_num [dragPos, witInputC9, dragWorld])).1

/-! Phase lemmas for the GameWorld::Update state machine. -/

/-- The split power-up never touches the levels. -/
theorem activateSplitPowerup_levels (w : GameWorld) :
    (w.activateSplitPowerup).levels = w.levels := by
  unfold GameWorld.activateSplitPowerup
  split <;> rfl

/-- The split power-up never changes the current-level index. -/
theorem activateSplitPowerup_cur (w : GameWorld) :
    (w.activateSplitPowerup).cur = w.cur := by
  unfold GameWorld.activateSplitPowerup
  split <;> rfl

/-- The score bookkeeping never touches the levels. -/
theorem scorePhase_levels (w : GameWorld) : (scorePhase w).levels = w.levels := rfl

/-- The score bookkeeping never changes the current-level index. -/
theorem scorePhase_cur (w : GameWorld) : (scorePhase w).cur = w.cur := rfl

/-- The power-up click branch never touches the levels. -/
theorem powerupPhase_levels (inp : Input) (w : GameWorld) :
    (powerupPhase inp w).levels = w.levels := by
  unfold powerupPhase
  split
  · exact activateSplitPowerup_levels w
  · rfl

/-- The power-up click branch never changes the current-level index. -/
theorem powerupPhase_cur (inp : Input) (w : GameWorld) :
    (powerupPhase inp w).cur = w.cur := by
  unfold powerupPhase
  split
  · exact activateSplitPowerup_cur w
  · rfl

/-- The grab branch never touches the levels. -/
theorem grabPhase_levels (inp : Input) (w : GameWorld) :
    (grabPhase inp w).levels = w.levels := by
  unfold grabPhase
  split <;> rfl

/-- The grab branch never changes the current-level index. -/
theorem grabPhase_cur (inp : Input) (w : GameWorld) :
    (grabPhase inp w).cur = w.cur := by
  unfold grabPhase
  split <;> rfl

/-- The drag branch never touches the levels. -/
theorem dragPhase_levels (inp : Input) (w : GameWorld) :
    (dragPhase inp w).levels = w.levels := by
  unfold dragPhase
  split <;> rfl

/-- The drag branch never changes the current-level index. -/
theorem dragPhase_cur (inp : Input) (w : GameWorld) :
    (dragPhase inp w).cur = w.cur := by
  unfold dragPhase
  split <;> rfl

/-- The release branch never touches the levels. -/
theorem releasePhase_levels (inp : Input) (w : GameWorld) :
    (releasePhase inp w).levels = w.levels := by
  unfold releasePhase
  split
  · dsimp only
    split <;> rfl
  · rfl

/-- The release branch never changes the current-level index. -/
theorem releasePhase_cur (inp : Input) (w : GameWorld) :
    (releasePhase inp w).cur = w.cur := by
  unfold releasePhase
  split
  · dsimp only
    split <;> rfl
  · rfl

/-- The pre-physics pipeline never touches the levels. -/
theorem prePhysics_levels (inp : Input) (w : GameWorld) :
    (prePhysics inp w).levels = w.levels := by
  unfold prePhysics
  rw [releasePhase_levels, dragPhase_levels, grabPhase_levels, powerupPhase_levels,
      scorePhase_levels]

/-- The pre-physics pipeline never changes the current-level index. -/
theorem prePhysics_cur (inp : Input) (w : GameWorld) :
    (prePhysics inp w).cur = w.cur := by
  unfold prePhysics
  rw [releasePhase_cur, dragPhase_cur, grabPhase_cur, powerupPhase_cur, scorePhase_cur]

/-- The physics branch never touches the attempts counter. -/
theorem physicsPhase_attempts (inp : Input) (w : GameWorld) :
    (physicsPhase inp w).attempts = w.attempts := by
  unfold physicsPhase GameWorld.setCurrentLevel GameWorld.resetBalls
  split
  · dsimp only
    split <;> rfl
  · rfl

/-- Updating one slot of the level table with a reset level only changes
that slot's state to PLAYING. -/
theorem update_reset_state (f : Fin 4 → Level) (j i : Fin 4) :
    ((Function.update f j ((f j).reset)) i).state = (f i).state ∨
      ((Function.update f j ((f j).reset)) i).state = LevelState.PLAYING := by
  rw [Function.update_apply]
  split
  · right
    simp [Level.reset]
  · left
    rfl

/-- The level table after SetLevel is the old table with the selected slot
reset. -/
theorem setLevel_levels (w : GameWorld) (n : ℕ) :
    ∃ j : Fin 4, (w.setLevel n).levels = Function.update w.levels j ((w.levels j).reset) :=
  ⟨_, rfl⟩

/-- SetLevel leaves every level state unchanged except for the one it
resets to PLAYING. -/
theorem setLevel_state (w : GameWorld) (n : ℕ) (i : Fin 4) :
    ((w.setLevel n).levels i).state = (w.levels i).state ∨
      ((w.setLevel n).levels i).state = LevelState.PLAYING := by
  obtain ⟨j, hj⟩ := setLevel_levels w n
  rw [hj]
  exact update_reset_state w.levels j i

/-- The completed-level branch only resets states to PLAYING. -/
theorem completedPhase_state (inp : Input) (w : GameWorld) (i : Fin 4) :
    ((completedPhase inp w).levels i).state = (w.levels i).state ∨
      ((completedPhase inp w).levels i).state = LevelState.PLAYING := by
  unfold completedPhase
  split
  · dsimp only
    split
    · exact setLevel_state w (w.cur.val + 2) i
    · left
      rfl
  · left
    rfl

/-- Without the advance condition, the completed-level branch leaves the
levels untouched. -/
theorem completedPhase_no_advance (inp : Input) (w : GameWorld)
    (h : ¬ (w.cur.val + 1 < 4 ∧ w.completionTime + inp.frameTime > 2)) :
    (completedPhase inp w).levels = w.levels := by
  unfold completedPhase
  split_ifs with h1
  · dsimp only
    split_ifs with h2
    · exact absurd ⟨h1, h2⟩ h
    · rfl
  · rfl

/-- The reset-key branch only resets states to PLAYING. -/
theorem resetKeyPhase_state (inp : Input) (w : GameWorld) (i : Fin 4) :
    ((resetKeyPhase inp w).levels i).state = (w.levels i).state ∨
      ((resetKeyPhase inp w).levels i).state = LevelState.PLAYING := by
  unfold resetKeyPhase GameWorld.setCurrentLevel GameWorld.reset GameWorld.resetBalls
    GameWorld.currentLevel
  split
  · dsimp only
    rw [Function.update_apply]
    split
    · right
      simp [Level.reset]
    · left
      rfl
  · left
    rfl

/-- The level-selection keys only reset states to PLAYING. -/
theorem levelKeyPhase_state (inp : Input) (w : GameWorld) (i : Fin 4) :
    ((levelKeyPhase inp w).levels i).state = (w.levels i).state ∨
      ((levelKeyPhase inp w).levels i).state = LevelState.PLAYING := by
  unfold levelKeyPhase
  split_ifs
  · exact setLevel_state w 1 i
  · exact setLevel_state w 2 i
  · exact setLevel_state w 3 i
  · exact setLevel_state w 4 i
  · left
    rfl

/-- Identity of the reset-key branch when neither key is pressed. -/
theorem resetKeyPhase_id (inp : Input) (w : GameWorld)
    (hr : inp.rightPressed = false) (hs : inp.spacePressed = false) :
    resetKeyPhase inp w = w := by
  simp [resetKeyPhase, hr, hs]

/-- Identity of the level-selection branch when no key is pressed. -/
theorem levelKeyPhase_id (inp : Input) (w : GameWorld)
    (h1 : inp.key1 = false) (h2 : inp.key2 = false) (h3 : inp.key3 = false)
    (h4 : inp.key4 = false) :
    levelKeyPhase inp w = w := by
  simp [levelKeyPhase, h1, h2, h3, h4]

/-- Identity of the power-up click branch when the button is not pressed. -/
theorem powerupPhase_id (inp : Input) (w : GameWorld) (h : inp.leftPressed = false) :
    powerupPhase inp w = w := by
  simp [powerupPhase, h]

/-- Identity of the grab branch when the button is not pressed. -/
theorem grabPhase_id (inp : Input) (w : GameWorld) (h : inp.leftPressed = false) :
    grabPhase inp w = w := by
  simp [grabPhase, h]

/-- Identity of the drag branch when the button is not held. -/
theorem dragPhase_id (inp : Input) (w : GameWorld) (h : inp.leftDown = false) :
    dragPhase inp w = w := by
  simp [dragPhase, h]

/-- Identity of the release branch when the button is not released. -/
theorem releasePhase_id (inp : Input) (w : GameWorld) (h : inp.leftReleased = false) :
    releasePhase inp w = w := by
  simp [releasePhase, h]

/-- UpdateBall leaves the level state alone or completes the level. -/
theorem updateBall_state (h : ℝ) (b : Ball) (lv : Level) :
    ((updateBall h b lv).2).state = lv.state ∨
      ((updateBall h b lv).2).state = LevelState.COMPLETED := by
  unfold updateBall Level.update
  dsimp only
  split
  · split
    · right
      rfl
    · left
      rfl
  · left
    rfl

/-- The split-ball loop leaves the level state alone or completes it. -/
theorem runSplitBalls_state (h : ℝ) (splits : List Ball) :
    ∀ (bs : List Ball) (lv : Level),
      ((List.foldl (fun acc sb =>
          if sb.isActive = true then
            let r := updateBall h sb acc.2
            (acc.1 ++ [r.1], r.2)
          else (acc.1 ++ [sb], acc.2)) (bs, lv) splits).2).state = lv.state ∨
        ((List.foldl (fun acc sb =>
          if sb.isActive = true then
            let r := updateBall h sb acc.2
            (acc.1 ++ [r.1], r.2)
          else (acc.1 ++ [sb], acc.2)) (bs, lv) splits).2).state = LevelState.COMPLETED := by
  induction splits with
  | nil =>
      intro bs lv
      left
      rfl
  | cons sb t ih =>
      intro bs lv
      rw [List.foldl_cons]
      by_cases hs : sb.isActive = true
      · rw [if_pos hs]
        rcases ih (bs ++ [(updateBall h sb lv).1]) (updateBall h sb lv).2 with h1 | h1
        · rcases updateBall_state h sb lv with h2 | h2
          · left
            rw [h1, h2]
          · right
            rw [h1, h2]
        · right
          exact h1
      · rw [if_neg hs]
        exact ih (bs ++ [sb]) lv

/-- The per-tick ball simulation leaves the current level's state alone or
completes it. -/
theorem ballsResult_state (sh : ℝ) (w : GameWorld) :
    ((ballsResult sh w).2.2).state = w.currentLevel.state ∨
      ((ballsResult sh w).2.2).state = LevelState.COMPLETED := by
  unfold ballsResult runSplitBalls
  dsimp only
  by_cases hb : w.ball.isActive = true
  · rw [if_pos hb]
    rcases runSplitBalls_state sh w.splitBalls [] (updateBall sh w.ball w.currentLevel).2
      with h1 | h1
    · rcases updateBall_state sh w.ball w.currentLevel with h2 | h2
      · left
        rw [h1, h2]
      · right
        rw [h1, h2]
    · right
      exact h1
  · rw [if_neg hb]
    exact runSplitBalls_state sh w.splitBalls [] w.currentLevel

/-- The level table after the launched physics branch: the current slot is
replaced by the post-collision level, failed when the exhaustion condition
holds. -/
theorem physicsPhase_levels_eq (inp : Input) (w : GameWorld) (hl : w.launched = true) :
    (physicsPhase inp w).levels =
      Function.update w.levels w.cur
        (if ((ballsResult inp.screenHeight w).1.isActive = false ∧
              ∀ b ∈ (ballsResult inp.screenHeight w).2.1, b.isActive = false) ∧
            w.attempts ≤ 0 ∧
            (ballsResult inp.screenHeight w).2.2.state ≠ LevelState.COMPLETED then
          { (ballsResult inp.screenHeight w).2.2 with state := LevelState.FAILED }
        else (ballsResult inp.screenHeight w).2.2) := by
  unfold physicsPhase GameWorld.setCurrentLevel GameWorld.resetBalls
  rw [if_pos hl]
  dsimp only
  split <;> rfl

/-- What the physics branch can do to a level state: leave it, complete it,
or fail it under exactly the exhaustion condition. -/
theorem physicsPhase_state (inp : Input) (w : GameWorld) (i : Fin 4) :
    ((physicsPhase inp w).levels i).state = (w.levels i).state ∨
      ((physicsPhase inp w).levels i).state = LevelState.COMPLETED ∨
      (((physicsPhase inp w).levels i).state = LevelState.FAILED ∧ i = w.cur ∧
        failConditionHolds inp w) := by
  by_cases hl : w.launched = true
  swap
  · unfold physicsPhase
    rw [if_neg hl]
    left
    rfl
  have hlev : (physicsPhase inp w).levels =
      Function.update w.levels w.cur
        (if ((ballsResult inp.screenHeight w).1.isActive = false ∧
              ∀ b ∈ (ballsResult inp.screenHeight w).2.1, b.isActive = false) ∧
            w.attempts ≤ 0 ∧
            (ballsResult inp.screenHeight w).2.2.state ≠ LevelState.COMPLETED then
          { (ballsResult inp.screenHeight w).2.2 with state := LevelState.FAILED }
        else (ballsResult inp.screenHeight w).2.2) := by
    unfold physicsPhase GameWorld.setCurrentLevel GameWorld.resetBalls
    rw [if_pos hl]
    dsimp only
    split <;> rfl
  rw [hlev, Function.update_apply]
  by_cases hi : i = w.cur
  · rw [if_pos hi]
    split
    · rename_i hcond
      right
      right
      exact ⟨rfl, hi, hl, hcond.1.1, hcond.1.2, hcond.2.1, hcond.2.2⟩
    · rcases ballsResult_state inp.screenHeight w with h1 | h1
      · left
        rw [h1, hi]
        rfl
      · right
        left
        exact h1
  · rw [if_neg hi]
    left
    rfl

/-! Claim C5: Completed and Failed never revert to Playing without Reset. -/

/-- C5: on any tick that performs no Level::Reset (no reset or level key,
no timed auto-advance), a level whose state was COMPLETED or FAILED never
shows PLAYING afterwards - equivalently PLAYING after implies PLAYING
before - and Level::Reset itself sets the state to PLAYING and restores
every obstacle's visibility (it touches nothing else; the attempts counter
is restored by the callers, not by Reset). -/
theorem claim5_state_monotonic :
    (∀ (inp : Input) (w : GameWorld) (i : Fin 4), ¬ tickResets inp w →
        ((GameWorld.update inp w).levels i).state = LevelState.PLAYING →
        (w.levels i).state = LevelState.PLAYING) ∧
      (∀ l : Level, (Level.reset l).state = LevelState.PLAYING ∧
        ∀ o ∈ (Level.reset l).obstacles, o.visible = true) := by
  constructor
  · intro inp w i htick hplay
    unfold GameWorld.update at hplay
    by_cases hcomp : w.currentLevel.state = LevelState.COMPLETED
    · rw [if_pos hcomp] at hplay
      unfold tickResets at htick
      rw [if_pos hcomp] at htick
      rw [completedPhase_no_advance inp w htick] at hplay
      exact hplay
    · rw [if_neg hcomp] at hplay
      unfold tickResets at htick
      rw [if_neg hcomp] at htick
      push_neg at htick
      obtain ⟨hr, hs, h1, h2, h3, h4⟩ := htick
      rw [levelKeyPhase_id inp _ (by simpa using h1) (by simpa using h2)
            (by simpa using h3) (by simpa using h4),
          resetKeyPhase_id inp _ (by simpa using hr) (by simpa using hs)] at hplay
      rcases physicsPhase_state inp (prePhysics inp w) i with h5 | h5 | h5
      · have h6 : (((prePhysics inp w).levels i).state) = LevelState.PLAYING :=
          h5.symm.trans hplay
        rwa [prePhysics_levels] at h6
      · exact absurd (h5.symm.trans hplay) (by decide)
      · exact absurd (h5.1.symm.trans hplay) (by decide)
  · intro l
    constructor
    · rfl
    · intro o ho
      simp only [Level.reset, List.mem_map] at ho
      obtain ⟨o0, -, ho0⟩ := ho
      rw [← ho0]

/-- C5 witness: on the completed last level with an idle input, the tick
performs no reset and the PLAYING state of level 0 traces back. -/
theorem claim5_state_monotonic_witness :
    (witWorldC5.levels 0).state = LevelState.PLAYING := by
  have hcomp : witWorldC5.currentLevel.state = LevelState.COMPLETED := rfl
  refine claim5_state_monotonic.1 idleInput witWorldC5 0 ?_ ?_
  · unfold tickResets
    rw [if_pos hcomp]
    intro hcontra
    exact absurd hcontra.1 (by decide)
  · have hupd : GameWorld.update idleInput witWorldC5 = witWorldC5 := by
      unfold GameWorld.update
      rw [if_pos hcomp]
      unfold completedPhase
      rw [if_neg (by decide)]
    rw [hupd]
    rfl

/-! Claim C6: the only source of the Failed state. -/

/-- C6: if a tick leaves some level in the FAILED state that was not FAILED
before, then that level is the current one, it had not reached COMPLETED,
and at the physics branch (after this tick's release handling) the ball was
launched, the main and every split projectile ended the tick inactive, and
the attempts counter had reached zero; no other tick introduces FAILED. -/
theorem claim6_failed_only_by_exhaustion (inp : Input) (w : GameWorld) (i : Fin 4)
    (h : ((GameWorld.update inp w).levels i).state = LevelState.FAILED) :
    (w.levels i).state = LevelState.FAILED ∨
      (i = w.cur ∧ w.currentLevel.state ≠ LevelState.COMPLETED ∧
        failConditionHolds inp (prePhysics inp w)) := by
  unfold GameWorld.update at h
  by_cases hcomp : w.currentLevel.state = LevelState.COMPLETED
  · rw [if_pos hcomp] at h
    rcases completedPhase_state inp w i with h2 | h2
    · left
      exact h2.symm.trans h
    · exact absurd (h2.symm.trans h) (by decide)
  · rw [if_neg hcomp] at h
    rcases levelKeyPhase_state inp _ i with h2 | h2
    · have hA : ((resetKeyPhase inp (physicsPhase inp (prePhysics inp w))).levels i).state =
          LevelState.FAILED := h2.symm.trans h
      rcases resetKeyPhase_state inp _ i with h3 | h3
      · have hB : ((physicsPhase inp (prePhysics inp w)).levels i).state =
            LevelState.FAILED := h3.symm.trans hA
        rcases physicsPhase_state inp (prePhysics inp w) i with h4 | h4 | h4
        · left
          have h5 : ((prePhysics inp w).levels i).state = LevelState.FAILED :=
            h4.symm.trans hB
          rwa [prePhysics_levels] at h5
        · exact absurd (h4.symm.trans hB) (by decide)
        · right
          refine ⟨?_, hcomp, h4.2.2⟩
          rw [← prePhysics_cur inp w]
          exact h4.2.1
      · exact absurd (h3.symm.trans hA) (by decide)
    · exact absurd (h2.symm.trans h) (by decide)

/-- C6 witness: an idle tick on a launched world whose ball comes to rest
with zero attempts left, applied to the theorem: the introduced FAILED
state is traced to the exhaustion condition. -/
theorem claim6_failed_witness :
    (witWorldC6.levels 0).state = LevelState.FAILED ∨
      ((0 : Fin 4) = witWorldC6.cur ∧
        witWorldC6.currentLevel.state ≠ LevelState.COMPLETED ∧
        failConditionHolds idleInput (prePhysics idleInput witWorldC6)) := by
  refine claim6_failed_only_by_exhaustion idleInput witWorldC6 0 ?_
  have hcomp : ¬ witWorldC6.currentLevel.state = LevelState.COMPLETED := by decide
  have hpre : prePhysics idleInput witWorldC6 = scorePhase witWorldC6 := by
    unfold prePhysics
    rw [powerupPhase_id _ _ rfl, grabPhase_id _ _ rfl, dragPhase_id _ _ rfl,
        releasePhase_id _ _ rfl]
  have hupd : GameWorld.update idleInput witWorldC6 =
      physicsPhase idleInput (scorePhase witWorldC6) := by
    unfold GameWorld.update
    rw [if_neg hcomp, levelKeyPhase_id _ _ rfl rfl rfl rfl, resetKeyPhase_id _ _ rfl rfl,
        hpre]
  rw [hupd]
  have hia : (integrateBall 720 witWorldC6.ball).isActive = false := by
    simp only [integrateBall, witWorldC6, GRAVITY]
    norm_num [abs_lt]
  have hbr : ballsResult idleInput.screenHeight (scorePhase witWorldC6) =
      (integrateBall 720 witWorldC6.ball, [], emptyLevel) := rfl
  rw [physicsPhase_levels_eq idleInput (scorePhase witWorldC6) rfl, hbr,
      show (scorePhase witWorldC6).cur = (0 : Fin 4) from rfl, Function.update_same]
  have hstop : (integrateBall 720 witWorldC6.ball, ([] : List Ball),
        emptyLevel).1.isActive = false ∧
      ∀ b ∈ (integrateBall 720 witWorldC6.ball, ([] : List Ball), emptyLevel).2.1,
        b.isActive = false :=
    ⟨hia, by simp⟩
  have hrest : (scorePhase witWorldC6).attempts ≤ 0 ∧
      (integrateBall 720 witWorldC6.ball, ([] : List Ball),
        emptyLevel).2.2.state ≠ LevelState.COMPLETED :=
    ⟨by decide, by decide⟩
  rw [if_pos ⟨hstop, hrest⟩]

/-! Claim C10: release always launches and decrements. -/

/-- C10: on a pure release tick (button released, nothing else pressed),
with the ball selected and away from the anchor and the current level not
COMPLETED, the release branch sets launched and the tick decrements the
attempts counter by one - with no precondition on the attempts value or on
the level state, so attempts can go negative and launches are processed on
a FAILED level. -/
theorem claim10_release_unconditional (inp : Input) (w : GameWorld)
    (hcomp : w.currentLevel.state ≠ LevelState.COMPLETED)
    (hrel : inp.leftReleased = true) (hsel : w.selected = true)
    (haway : w.ball.pos.x ≠ w.xStart ∨ w.ball.pos.y ≠ w.yStart)
    (hp : inp.leftPressed = false) (hd : inp.leftDown = false)
    (hr : inp.rightPressed = false) (hs : inp.spacePressed = false)
    (h1 : inp.key1 = false) (h2 : inp.key2 = false) (h3 : inp.key3 = false)
    (h4 : inp.key4 = false) :
    (prePhysics inp w).launched = true ∧
      (GameWorld.update inp w).attempts = w.attempts - 1 := by
  have hpre : prePhysics inp w = releasePhase inp (scorePhase w) := by
    unfold prePhysics
    rw [powerupPhase_id _ _ hp, grabPhase_id _ _ hp, dragPhase_id _ _ hd]
  have hselS : (scorePhase w).selected = true := hsel
  have hawayS : (scorePhase w).ball.pos.x ≠ (scorePhase w).xStart ∨
      (scorePhase w).ball.pos.y ≠ (scorePhase w).yStart := haway
  have hL : (releasePhase inp (scorePhase w)).launched = true := by
    unfold releasePhase
    rw [if_pos hrel]
    dsimp only
    rw [if_pos ⟨hselS, hawayS⟩]
  have hA : (releasePhase inp (scorePhase w)).attempts = w.attempts - 1 := by
    unfold releasePhase
    rw [if_pos hrel]
    dsimp only
    rw [if_pos ⟨hselS, hawayS⟩]
    rfl
  constructor
  · rw [hpre]
    exact hL
  · unfold GameWorld.update
    rw [if_neg hcomp, levelKeyPhase_id _ _ h1 h2 h3 h4, resetKeyPhase_id _ _ hr hs,
        physicsPhase_attempts, hpre, hA]

/-- C10 witness: with the current level FAILED and zero attempts, releasing
the held ball still launches and drives the attempts counter to -1. -/
theorem claim10_release_witness :
    witWorldC10.attempts = 0 ∧
      (witWorldC10.levels witWorldC10.cur).state = LevelState.FAILED ∧
      (prePhysics releaseInput witWorldC10).launched = true ∧
      (GameWorld.update releaseInput witWorldC10).attempts = -1 := by
  have h := claim10_release_unconditional releaseInput witWorldC10
    (by decide) rfl rfl (Or.inl (by norm_num [witWorldC10])) rfl rfl rfl rfl rfl rfl
    rfl rfl
  refine ⟨rfl, rfl, h.1, ?_⟩
  rw [h.2]
  rfl

end AngryBirds
